import Mathlib

/-!
Verification development for the family-dashboard aggregation pipeline of the
telaila backend (`family_dashboard_generator.py`).

The Python source is shallowly embedded: every class method that the dashboard
pipeline executes is translated into an executable Lean definition operating on
explicit data structures. Python strings are modelled as Lean `String`s, with
all operations implemented over `List Char` by structural recursion so that
every definition evaluates inside the kernel. Python `None`/falsy-string
distinctions are modelled with `Option` or explicit emptiness checks, matching
the truthiness tests of the source line by line.

Wall-clock and timezone dependent operations (`datetime.now()`, `pytz`
conversion, `strftime`) and other environment effects (md5 hashing for event
ids, Python `set` iteration order) are parametrised: the embedding quantifies
over an abstract local-time type `T` with a `TimeEnv` of formatting functions,
over a hash function for `hashlib.md5(...)[:8]`, and over a picking function
for `list(some_set)[0]`. No theorem below depends on a particular choice of
these parameters.
-/

namespace Telaila

/-! ## Python-string primitives over `List Char` -/

/-- Membership test for a character in a list of characters. -/
def chMem (c : Char) (l : List Char) : Bool :=
  l.any (fun d => d = c)

/-- Python `needle in hay` (substring containment, `str.__contains__`). -/
def lcContains (hay needle : List Char) : Bool :=
  match hay with
  | [] => needle.isEmpty
  | _ :: t => needle.isPrefixOf hay || lcContains t needle

/-- Python `hay.find(needle)`: index of the leftmost occurrence, as an
`Option` (Python returns `-1` when absent, always guarded in the source). -/
def lcFind (hay needle : List Char) : Option Nat :=
  match hay with
  | [] => if needle.isEmpty then some 0 else none
  | _ :: t =>
    if needle.isPrefixOf hay then some 0
    else (lcFind t needle).map (· + 1)

/-- Python `hay.rfind(needle)`: index of the rightmost occurrence. -/
def lcRFind (hay needle : List Char) : Option Nat :=
  match hay with
  | [] => if needle.isEmpty then some 0 else none
  | _ :: t =>
    match lcRFind t needle with
    | some i => some (i + 1)
    | none => if needle.isPrefixOf hay then some 0 else none

/-- Python `hay.count(needle)` for a non-empty needle: number of
non-overlapping occurrences, scanning left to right. Fuel-driven so that the
recursion is structural. -/
def lcCountAux (fuel : Nat) (hay needle : List Char) : Nat :=
  match fuel with
  | 0 => 0
  | fuel + 1 =>
    match hay with
    | [] => 0
    | _ :: t =>
      if needle.isPrefixOf hay then 1 + lcCountAux fuel (hay.drop needle.length) needle
      else lcCountAux fuel t needle

/-- Python `hay.count(needle)` (used in the source only with non-empty needles). -/
def lcCount (hay needle : List Char) : Nat :=
  lcCountAux (hay.length + 1) hay needle

/-- Python `str.lower` restricted to the ASCII range, which is the only case
the keyword tables exercise. -/
def lowerChar (c : Char) : Char := c.toLower

/-- Python `str.strip()` (whitespace on both ends). -/
def lcStrip (l : List Char) : List Char :=
  ((l.dropWhile Char.isWhitespace).reverse.dropWhile Char.isWhitespace).reverse

/-- Python `str.rstrip(chars)`: drop characters of `set` from the right end. -/
def lcRStrip (l : List Char) (set : List Char) : List Char :=
  (l.reverse.dropWhile (fun c => chMem c set)).reverse

/-- Python `str.split()` with no argument: split on whitespace runs,
discarding empty fields. `cur` holds the current word reversed. -/
def lcSplitWsAux : List Char → List Char → List (List Char)
  | [], cur => if cur.isEmpty then [] else [cur.reverse]
  | c :: t, cur =>
    if c.isWhitespace then
      if cur.isEmpty then lcSplitWsAux t []
      else cur.reverse :: lcSplitWsAux t []
    else lcSplitWsAux t (c :: cur)

/-- Python `str.split('\n')`-style split on a single separator character,
keeping empty fields (matching `str.split(sep)`). -/
def lcSplitChAux (sep : Char) : List Char → List Char → List (List Char)
  | [], cur => [cur.reverse]
  | c :: t, cur =>
    if c = sep then cur.reverse :: lcSplitChAux sep t []
    else lcSplitChAux sep t (c :: cur)

/-- Python `str.replace(old, new)` for a non-empty `old`, left to right,
non-overlapping. Fuel-driven structural recursion. -/
def lcReplaceAux (fuel : Nat) (old new : List Char) : List Char → List Char
  | l =>
    match fuel with
    | 0 => l
    | fuel + 1 =>
      match l with
      | [] => []
      | c :: t =>
        if old.isPrefixOf l then new ++ lcReplaceAux fuel old new (l.drop old.length)
        else c :: lcReplaceAux fuel old new t

/-- Python title-casing (`str.title()`): a letter is upper-cased when the
previous character is not a letter, lower-cased otherwise. -/
def lcTitleAux : Bool → List Char → List Char
  | _, [] => []
  | prevAlpha, c :: t =>
    let a := c.isAlpha
    let c2 := if a then (if prevAlpha then c.toLower else c.toUpper) else c
    c2 :: lcTitleAux a t

/-- Strict code-point comparison of character lists, mirroring Python string
comparison. -/
def lcLt : List Char → List Char → Bool
  | [], [] => false
  | [], _ :: _ => true
  | _ :: _, [] => false
  | a :: as, b :: bs =>
    if a.toNat < b.toNat then true
    else if b.toNat < a.toNat then false
    else lcLt as bs

/-! String-level wrappers used by the translated source. -/

/-- Python `needle in hay` on strings. -/
def pyIn (needle hay : String) : Bool := lcContains hay.toList needle.toList

/-- Python `a < b` on strings. -/
def pyLt (a b : String) : Bool := lcLt a.toList b.toList

/-- Python `a <= b` on strings. -/
def pyLe (a b : String) : Bool := !(lcLt b.toList a.toList)

/-- Python `str.lower()`. -/
def pyLower (s : String) : String := String.mk (s.toList.map lowerChar)

/-- Python `str.upper()`-free title-casing `str.title()`. -/
def pyTitle (s : String) : String := String.mk (lcTitleAux false s.toList)

/-- Python `str.strip()`. -/
def pyStrip (s : String) : String := String.mk (lcStrip s.toList)

/-- Python `str.split()` (whitespace, empties dropped). -/
def pySplit (s : String) : List String :=
  (lcSplitWsAux s.toList []).map String.mk

/-- Python `str.split(sep)` for a one-character separator, keeping empties. -/
def pySplitCh (sep : Char) (s : String) : List String :=
  (lcSplitChAux sep s.toList []).map String.mk

/-- Python `str.replace(old, new)` (the source only replaces non-empty `old`). -/
def pyReplace (s old new : String) : String :=
  String.mk (lcReplaceAux (s.toList.length + 1) old.toList new.toList s.toList)

/-- Python `s[:n]` on strings. -/
def pyTake (s : String) (n : Nat) : String := String.mk (s.toList.take n)

/-- Python `s[n:]` on strings. -/
def pyDrop (s : String) (n : Nat) : String := String.mk (s.toList.drop n)

/-- Python `s.startswith(p)`. -/
def pyStarts (s p : String) : Bool := p.toList.isPrefixOf s.toList

/-- Python `len(s)` (code points; all source text is effectively ASCII). -/
def pyLen (s : String) : Nat := s.toList.length

/-- Python `lst[-k:]` (the last `k` elements). -/
def takeLast (k : Nat) (l : List α) : List α := l.drop (l.length - k)

/-- First `some` in a list of options (models successive
`if not x: x = candidate` assignments). -/
def firstSome : List (Option α) → Option α
  | [] => none
  | some a :: _ => some a
  | none :: t => firstSome t

/-! ## Stable insertion sort (Python's `sort`/`sorted` are stable) -/

/-- Insert `x` after every element `y` with `le y x`; used by `stableSortBy`.
With a total `le` this yields a stable insertion sort. -/
def insSortedBy (le : α → α → Bool) (x : α) : List α → List α
  | [] => [x]
  | y :: ys => if le y x then y :: insSortedBy le x ys else x :: y :: ys

/-- Stable sort by the boolean relation `le` (Python `sorted(..., key=...)`). -/
def stableSortBy (le : α → α → Bool) (l : List α) : List α :=
  l.foldl (fun acc x => insSortedBy le x acc) []

/-! ## Association lists standing in for insertion-ordered Python dicts -/

/-- Python `d[k] = v` on an insertion-ordered dict: replace in place or append. -/
def asetA [BEq κ] (k : κ) (v : α) : List (κ × α) → List (κ × α)
  | [] => [(k, v)]
  | (k2, v2) :: t => if k2 == k then (k, v) :: t else (k2, v2) :: asetA k v t

/-- Python `d[k]` update through a function with a default (`defaultdict`). -/
def aupdA [BEq κ] (k : κ) (f : α → α) (dflt : α) : List (κ × α) → List (κ × α)
  | [] => [(k, f dflt)]
  | (k2, v2) :: t => if k2 == k then (k2, f v2) :: t else (k2, v2) :: aupdA k f dflt t

/-- Python `d.get(k)` / `k in d`. -/
def agetA [BEq κ] (k : κ) : List (κ × α) → Option α
  | [] => none
  | (k2, v2) :: t => if k2 == k then some v2 else agetA k t

/-- Deduplicate keeping first occurrences (models building a list while
checking a `seen` set). -/
def dedupKeepAux [BEq α] (seen : List α) : List α → List α
  | [] => []
  | x :: t =>
    if seen.contains x then dedupKeepAux seen t
    else x :: dedupKeepAux (x :: seen) t

/-- Deduplicate keeping first occurrences. -/
def dedupKeep [BEq α] (l : List α) : List α := dedupKeepAux [] l

/-- Python `' '.join(lst)`-style join. -/
def joinWith (sep : String) : List String → String
  | [] => ""
  | [x] => x
  | x :: t => x ++ sep ++ joinWith sep t

/-- Python `a or b` for an optional/possibly-empty string `a`. -/
def pyOrStr (a : Option String) (b : String) : String :=
  match a with
  | some s => if s = "" then b else s
  | none => b

/-! ## Environment parameters

`FamilyDashboardGenerator` methods read the wall clock (`datetime.now`),
convert timestamps to the fixed `America/Vancouver` timezone and format them
with `strftime`; event ids come from `hashlib.md5`, and two places read
`list(python_set)[0]` whose order the Python runtime determines. All of these
are modelled as parameters collected in `Env`. `T` is the abstract type of
timezone-aware datetimes, linearly ordered like Python datetimes. -/

structure Env (T : Type) where
  /-- `_to_local_time`: total (falls back to `datetime.now` internally). -/
  toLocal : String → T
  /-- `datetime.now(self.local_tz) - timedelta(days=k)`. -/
  nowMinusDays : Nat → T
  /-- `datetime.now().isoformat()`. -/
  nowIso : String
  /-- `strftime('%b %d, %Y')`. -/
  fmtMDY : T → String
  /-- `strftime('%A, %B %d, %Y at %I:%M %p')`. -/
  fmtFull : T → String
  /-- `strftime('%A')`. -/
  fmtDayName : T → String
  /-- `strftime('%A, %B %d')`. -/
  fmtDayMonth : T → String
  /-- `strftime('%b %d')`. -/
  fmtMonthDay : T → String
  /-- `strftime('%B %d')`. -/
  fmtMonthDayLong : T → String
  /-- `strftime('%d')`. -/
  fmtDayNum : T → String
  /-- `strftime('%B %d, %Y')`. -/
  fmtLongDate : T → String
  /-- `strftime('%I:%M %p')`. -/
  fmtTime : T → String
  /-- `(datetime.now(self.local_tz) - t).days`. -/
  daysSinceNow : T → Int
  /-- `hashlib.md5(s.encode()).hexdigest()[:8]`. -/
  md5hex8 : String → String
  /-- `list(s)[0]` for a Python `set` presented as its elements in first-insertion order. -/
  pickFromSet : List String → String

/-! ## Data model: one conversation record (§6 of the spec)

The analyzer output is duck-typed JSON; list entries that may be strings or
dicts are modelled as sum types, and `dict.get` defaults are applied at the
use sites exactly as in the source. -/

/-- An entry of `analysis.biography.stories`. -/
inductive PyStory
  | str (s : String)
  | obj (topic details : String) (people_involved : List String)
  | other
deriving DecidableEq

/-- An entry of `analysis.biography.people`. -/
inductive PyPerson
  | str (s : String)
  | obj (name relationship : Option String)
  | other
deriving DecidableEq

/-- An entry of `analysis.biography.timeline_events`. -/
inductive PyTimelineEvent
  | str (s : String)
  | obj (event description : Option String)
  | other
deriving DecidableEq

/-- An entry of `analysis.health.red_flags`: a string, or a dict whose
`str()` rendering is `repr` and which may carry a `concern` key. -/
inductive PyFlag
  | str (s : String)
  | obj (concern : Option String) (repr : String)
deriving DecidableEq

/-- `flag if isinstance(flag, str) else str(flag)`. -/
def PyFlag.text : PyFlag → String
  | .str s => s
  | .obj _ r => r

/-- `analysis.conversation` with the defaults the source supplies at access. -/
structure PyConvData where
  mood : String := "neutral"
  engagement : String := "moderate"
  topics : List String := []
  memorable_quotes : List String := []
  follow_ups : List String := []
deriving DecidableEq

/-- `analysis.health`. -/
structure PyHealth where
  summary : String := ""
  red_flags : List PyFlag := []
deriving DecidableEq

/-- `analysis.biography`. -/
structure PyBio where
  stories : List PyStory := []
  people : List PyPerson := []
  timeline_events : List PyTimelineEvent := []
deriving DecidableEq

/-- The nested `analysis` object. -/
structure PyAnalysis where
  conversation : PyConvData := {}
  health : PyHealth := {}
  biography : PyBio := {}
deriving DecidableEq

/-- One conversation JSON record. -/
structure Conv where
  timestamp : String := ""
  transcript : String := ""
  analysis : PyAnalysis := {}
deriving DecidableEq

/-! ## Keyword tables from `FamilyDashboardGenerator.__init__` -/

/-- `self.injury_keywords`. -/
def injury_keywords : List String :=
  ["fell", "fall", "fallen", "hurt", "injured", "injury", "accident",
   "broke", "broken", "sprain", "strain", "cut", "bruise", "hit",
   "twisted", "pulled", "torn", "fracture", "bump", "crash", "ladder"]

/-- `self.symptom_keywords`. -/
def symptom_keywords : List String :=
  ["pain", "ache", "sore", "stiff", "tired", "fatigue", "weak",
   "dizzy", "numb", "swollen", "inflammation", "discomfort",
   "trouble sleeping", "can\x27t sleep", "insomnia", "headache",
   "sleeping sitting", "not sleeping"]

/-- `self.body_parts`. -/
def body_parts : List String :=
  ["back", "knee", "hip", "shoulder", "neck", "arm", "leg",
   "ankle", "wrist", "hand", "foot", "head", "chest", "stomach"]

/-- `self.theme_icons` (insertion-ordered dict). -/
def theme_icons : List (String × String) :=
  [("family", "👨‍👩‍👧‍👦"), ("health", "🏥"), ("travel", "✈️"), ("home", "🏠"),
   ("work", "💼"), ("hobbies", "🎯"), ("friends", "👥"), ("memories", "💭"),
   ("daily_life", "☀️"), ("food", "🍽️"), ("nature", "🌿"), ("pets", "🐾"),
   ("music", "🎵"), ("books", "📚"), ("sports", "⚽"), ("garden", "🌻"),
   ("crafts", "🎨"), ("faith", "🙏"), ("weather", "🌤️"), ("shopping", "🛍️"),
   ("general", "💬"),
   ("snowbird", "🌴"), ("poker", "🃏"), ("rv_life", "🚐"),
   ("social_outings", "🍽️"), ("daily_errands", "📋"), ("health_recovery", "💪"),
   ("friends_social", "👥"), ("visitors", "🏠"), ("conversations", "💬")]

/-- `self.topic_categories` (insertion-ordered; order matters for overlaps). -/
def topic_categories : List (String × List String) :=
  [("shopping", ["bookstore", "shop", "shopping", "store", "market", "buy", "bought"]),
   ("pets", ["dog", "cat", "cats", "pet", "animal", "kitten", "puppy"]),
   ("weather", ["weather", "rain", "sunny", "cold", "warm", "snow"]),
   ("books", ["book", "read", "reading", "mystery", "novel", "show", "tv", "author", "library"]),
   ("family", ["family", "daughter", "son", "wife", "husband", "grandkid", "grandson",
               "granddaughter", "mother", "father", "sister", "brother", "parent", "child", "kids",
               "visit with son", "visit with daughter", "son\x27s visit", "daughter\x27s visit"]),
   ("health", ["health", "doctor", "hospital", "pain", "sick", "medicine", "injury",
               "recovery", "appointment", "eye doctor"]),
   ("travel", ["travel", "trip", "vacation", "journey", "flight", "cruise", "adventure"]),
   ("home", ["home", "house", "apartment", "moved", "neighborhood", "routine", "morning"]),
   ("work", ["work", "job", "career", "business", "office", "retired", "profession"]),
   ("hobbies", ["hobby", "craft", "collect", "build", "create", "project", "knitting", "sewing", "woodworking"]),
   ("friends", ["friend", "neighbor", "community", "club", "group", "reconnect"]),
   ("memories", ["remember", "childhood", "grew up", "years ago", "used to", "back then", "history"]),
   ("food", ["cook", "recipe", "food", "meal", "baking", "kitchen", "tea"]),
   ("nature", ["garden", "flowers", "plants", "outdoors", "birds", "spring",
               "crocus", "bloom", "tree"]),
   ("music", ["music", "song", "sing", "instrument", "concert"]),
   ("sports", ["golf", "fishing", "sports", "game", "exercise", "walk", "walking"]),
   ("faith", ["church", "faith", "pray", "god", "spiritual", "religion"])]

/-- `self.category_blockers`: blocker phrases per category (only `nature`). -/
def category_blockers : List (String × List String) :=
  [("nature", ["nature of", "human nature", "by nature"])]

/-- `self.family_keywords`. -/
def family_keywords : List String :=
  ["son", "daughter", "wife", "husband", "grandkid", "grandson",
   "granddaughter", "mother", "father", "sister", "brother",
   "family", "parent", "child", "kids"]

/-! ## Regex sets, expanded

Every regex in `self.meta_topic_patterns` and `self.meta_patterns` is a
finite alternation of literals (optionally anchored); each is expanded into
its literal alternatives. `re.search` of an unanchored pattern is substring
containment, a pattern anchored with caret is a prefix test, and a pattern
anchored on both ends with an optional trailing punctuation class is a
whole-string test. -/

/-- Concatenation of alternations: all ways to pick one literal per group. -/
def catAlts : List (List String) → List String
  | [] => [""]
  | g :: gs => g.flatMap (fun a => (catAlts gs).map (fun r => a ++ r))

/-- `self.meta_topic_patterns`, expanded to substring alternatives. -/
def meta_topic_pattern_alts : List (List String) :=
  [["introduction"],
   ["purpose of call", "purpose of conversation"],
   ["getting to know"],
   ["first call", "first conversation", "first chat"],
   ["how aila works", "how the system works"],
   ["explain the", "explain how", "explaining the", "explaining how"]]

/-- Unanchored patterns of `self.meta_patterns`, expanded (source order). -/
def meta_substring_alts : List String :=
  catAlts [["dont ", "don\x27t "], ["you "], ["", "ever "], ["sleep"]] ++
  ["do you sleep"] ++
  catAlts [["youre ", "you\x27re "], ["", "a ", "an "], ["ai", "robot", "machine", "computer"]] ++
  catAlts [["as "], ["", "a ", "an "], ["ai", "artificial"]] ++
  catAlts [["see me "], ["as", "purely as"], [" fiction"]] ++
  ["speaking with me"] ++
  catAlts [["talking to "], ["me", "you"]] ++
  catAlts [["you "], ["", "dont ", "don\x27t ", "cant ", "can\x27t "],
           ["have", "feel", "experience", "understand"]] ++
  ["what do you think", "how do you feel", "are you real"] ++
  catAlts [["youre not ", "you\x27re not "], ["real", "human"]] ++
  ["artificial intelligence"] ++
  ["youre programmed", "you\x27re programmed"] ++
  ["your programming"] ++
  ["this conversation"] ++
  catAlts [["were ", "we\x27re "], ["", "just "], ["talking"]] ++
  ["you asked", "i asked you", "let me ask"] ++
  ["thats a good question", "that\x27s a good question"] ++
  ["i think them through"]

/-- Fully-anchored patterns of `self.meta_patterns`: alternatives together
with the optional trailing punctuation class. -/
def meta_exact_alts : List (List String × List Char) :=
  [(["yes", "no", "okay", "ok", "sure", "right", "yeah", "yep", "nope",
     "maybe", "hmm", "huh", "well"], ['.', '?', '!', ',']),
   (catAlts [["i "], ["think", "guess", "suppose"], [" so"]], ['.', '?', '!']),
   (catAlts [["thats ", "that\x27s "], ["right", "true", "correct"]], ['.', '?', '!']),
   (["i dont know", "i don\x27t know"], ['.', '?', '!']),
   (["not really"], ['.', '?', '!'])]

/-- Caret-anchored prefix patterns of `self.meta_patterns`, expanded. -/
def meta_start_alts : List String :=
  catAlts [["well"], ["", ","], [" i "], ["", "do "], ["think", "guess", "suppose"]] ++
  ["im not sure", "i\x27m not sure"] ++
  catAlts [["i "], ["would", "could"], [" say"]] ++
  catAlts [["its ", "it\x27s "], ["hard", "difficult"], [" to "], ["say", "explain"]] ++
  ["that depends", "in a way", "sort of", "kind of", "i mean"]

/-- Extra keyword checks at the end of `_is_meta_quote`. -/
def meta_keywords : List String :=
  ["aila", "ai ", " ai", "robot", "artificial", "programmed",
   "machine", "computer", "algorithm"]

/-! ## Leaf helpers of the generator class -/

variable {T : Type}

/-- `_format_date`: empty/None timestamps render as `Unknown`; otherwise the
timestamp is converted to local time and formatted (both total). -/
def format_date (env : Env T) (ts : String) : String :=
  if ts = "" then "Unknown" else env.fmtMDY (env.toLocal ts)

/-- `_calculate_duration`. -/
def calculate_duration (transcript : String) : String :=
  if transcript = "" then "Unknown"
  else
    let turns := lcCount transcript.toList "\nAila:".toList +
      lcCount transcript.toList "\nUser:".toList
    let minutes := (turns * 30) / 60
    if minutes < 1 then "< 1 minute"
    else if minutes = 1 then "1 minute"
    else toString minutes ++ " minutes"

/-- `_is_meta_quote`. -/
def is_meta_quote (quote : String) : Bool :=
  if quote = "" then true
  else
    let ql := pyStrip (pyLower quote)
    meta_substring_alts.any (fun a => pyIn a ql) ||
    meta_exact_alts.any (fun p =>
      p.1.any (fun w => ql = w || p.2.any (fun c => ql = w ++ String.mk [c]))) ||
    meta_start_alts.any (fun a => pyStarts ql a) ||
    meta_keywords.any (fun kw => pyIn kw ql)

/-- `_is_meta_topic`. -/
def is_meta_topic (topic : String) : Bool :=
  if topic = "" then false
  else
    let tl := pyLower topic
    meta_topic_pattern_alts.any (fun alts => alts.any (fun a => pyIn a tl))

/-- Word tables of `_analyze_quote_sentiment`. -/
def pain_words : List String :=
  ["pain", "hurt", "sore", "ache", "bruise", "injured", "injury",
   "stiff", "swollen", "inflammation", "discomfort"]

/-- Struggle/difficulty indicators. -/
def struggle_words : List String :=
  ["tough", "difficult", "hard time", "couldn\x27t", "can\x27t",
   "struggle", "terrible", "awful", "worst", "rough",
   "trouble sleeping", "couldn\x27t sleep", "can\x27t sleep"]

/-- Recovery/improvement indicators. -/
def recovery_words : List String :=
  ["better", "improving", "healing", "recovered", "getting better",
   "feeling better", "bit better", "little better"]

/-- Worry/concern indicators. -/
def worry_words : List String :=
  ["worried", "anxious", "nervous", "scared", "afraid", "concern"]

/-- Gratitude/appreciation indicators. -/
def gratitude_words : List String :=
  ["grateful", "thankful", "blessed", "appreciate", "lucky"]

/-- Joy/excitement indicators. -/
def joy_words : List String :=
  ["love", "enjoy", "wonderful", "amazing", "fantastic", "great time",
   "rewarding", "beautiful", "exciting", "fun"]

/-- Nostalgia/reflection indicators. -/
def nostalgia_words : List String :=
  ["remember", "years ago", "used to", "back then", "childhood",
   "grew up", "when i was", "memories"]

/-- Wisdom/philosophical indicators. -/
def wisdom_words : List String :=
  ["learn", "realize", "understand", "life is", "important thing",
   "adventure", "perspective", "open-minded"]

/-- `_analyze_quote_sentiment`: returns `(mood_emoji, mood_label)`. -/
def analyze_quote_sentiment (quote default_emoji default_label : String) :
    String × String :=
  if quote = "" then (default_emoji, default_label)
  else
    let ql := pyLower quote
    if pain_words.any (fun w => pyIn w ql) then ("💪", "Persevering")
    else if struggle_words.any (fun w => pyIn w ql) then ("😓", "Struggling")
    else if recovery_words.any (fun w => pyIn w ql) then ("🌱", "Recovering")
    else if worry_words.any (fun w => pyIn w ql) then ("😟", "Concerned")
    else if gratitude_words.any (fun w => pyIn w ql) then ("🙏", "Grateful")
    else if joy_words.any (fun w => pyIn w ql) then ("😊", "Happy")
    else if nostalgia_words.any (fun w => pyIn w ql) then ("💭", "Nostalgic")
    else if wisdom_words.any (fun w => pyIn w ql) then ("🌟", "Reflective")
    else (default_emoji, default_label)

/-- `_extract_body_part` (argument already lower-cased at every call site). -/
def extract_body_part (text : String) : Option String :=
  body_parts.find? (fun p => pyIn p text)

/-- Line scan of `_extract_user_content` (state: inside a `User:` block). -/
def extract_user_content_lines : Bool → List String → List String
  | _, [] => []
  | inUser, line :: rest =>
    let ls := pyStrip line
    if pyStarts ls "User:" then
      pyStrip (pyDrop ls 5) :: extract_user_content_lines true rest
    else if pyStarts ls "Aila:" || pyStarts ls "Assistant:" then
      extract_user_content_lines false rest
    else if inUser && ls ≠ "" then
      ls :: extract_user_content_lines inUser rest
    else
      extract_user_content_lines inUser rest

/-- `_extract_user_content`. -/
def extract_user_content (transcript : String) : String :=
  if transcript = "" then ""
  else joinWith " " (extract_user_content_lines false (pySplitCh '\n' transcript))

/-! ## `_smart_truncate` -/

/-- Replacement on char lists, fuel already supplied. -/
def lcRepl (l : List Char) (old new : String) : List Char :=
  lcReplaceAux (l.length + 1) old.toList new.toList l

/-- Loop `while text.startswith('...'): text = text[3:].strip()`. -/
def dropLeadingEllipsis : Nat → List Char → List Char
  | 0, l => l
  | fuel + 1, l =>
    if "...".toList.isPrefixOf l then dropLeadingEllipsis fuel (lcStrip (l.drop 3))
    else l

/-- The character class of `text[-1] in "\x7d\x27"]\x7d"`. -/
def trail_junk : List Char := ['\x7d', '\x27', '"', ']']

/-- Loop `while text and text[-1] in ...: text = text[:-1].strip()`. -/
def dropTrailingJunk : Nat → List Char → List Char
  | 0, l => l
  | fuel + 1, l =>
    match l.getLast? with
    | some c =>
      if chMem c trail_junk then dropTrailingJunk fuel (lcStrip (l.take (l.length - 1)))
      else l
    | none => l

/-- The JSON-artifact replacements shared by `_smart_truncate`. -/
def cleanArtifacts (l : List Char) : List Char :=
  lcRepl (lcRepl (lcRepl (lcRepl (lcRepl (lcRepl l
    "\x7b\x27" "") "\x27\x7d" "") "\x7b\"" "") "\"\x7d" "")
    "\x27, \x27" ", ") "\", \"" ", "

/-- Sentence endings probed by `_smart_truncate`, in preference order. -/
def sentence_endings : List String :=
  [". ", "! ", "? ", ".\n", "!\n", "?\n", ".", "!", "?"]

/-- Abbreviations that do not end a sentence. -/
def abbrev_words : List String :=
  ["mr", "mrs", "ms", "dr", "st", "vs", "etc", "i.e", "e.g"]

/-- The `for ending in [...]` search: rightmost occurrence past 40% of the
length whose preceding word is not an abbreviation; yields `best_end`.
`pos > max_length*0.4` is rendered exactly as `10*pos > 4*maxLength`. -/
def findBestEnd (truncated : List Char) (maxLength : Nat) : List String → Option Nat
  | [] => none
  | e :: rest =>
    match lcRFind truncated e.toList with
    | some pos =>
      if 10 * pos > 4 * maxLength then
        let ws := lcSplitWsAux (truncated.take pos) []
        let before := (ws.getLast?.map String.mk).getD ""
        if (pyLower before) ∈ abbrev_words then findBestEnd truncated maxLength rest
        else some (pos + (lcRStrip e.toList [' ', '\n']).length)
      else findBestEnd truncated maxLength rest
    | none => findBestEnd truncated maxLength rest

/-- Separators probed when no sentence ending qualifies. -/
def trunc_separators : List String := [", ", "; ", " - ", " – "]

/-- The `for sep in [...]` search; `last_sep > max_length*0.5` is
`2*pos > maxLength`. -/
def findSep (truncated : List Char) (maxLength : Nat) : List String → Option Nat
  | [] => none
  | sep :: rest =>
    match lcRFind truncated sep.toList with
    | some pos => if 2 * pos > maxLength then some pos else findSep truncated maxLength rest
    | none => findSep truncated maxLength rest

/-- `_smart_truncate(text, max_length)`. -/
def smart_truncate (text : String) (maxLength : Nat := 350) : String :=
  if text = "" then ""
  else
    let t0 := lcStrip text.toList
    let t1 := dropLeadingEllipsis (t0.length + 1) t0
    let t2 := dropTrailingJunk (t1.length + 1) t1
    let t := cleanArtifacts t2
    if t.length ≤ maxLength then
      let t4 := lcRStrip t ['.', ',', ';', ':', ' ']
      match t4.getLast? with
      | some c => if chMem c ['.', '!', '?'] then String.mk t4 else String.mk (t4 ++ ['.'])
      | none => String.mk t4
    else
      let truncated := t.take maxLength
      match findBestEnd truncated maxLength sentence_endings with
      | some bestEnd =>
        if bestEnd > 0 then
          let result := lcStrip (t.take bestEnd)
          match result.getLast? with
          | some c =>
            if chMem c ['.', '!', '?'] then String.mk result
            else String.mk (result ++ ['.'])
          | none => String.mk result
        else smartTruncFallback t truncated maxLength
      | none => smartTruncFallback t truncated maxLength
where
  /-- The comma/word-boundary/hard-cut fallbacks at the end of `_smart_truncate`. -/
  smartTruncFallback (t truncated : List Char) (maxLength : Nat) : String :=
    match findSep truncated maxLength trunc_separators with
    | some lastSep => String.mk (lcStrip (t.take lastSep) ++ "...".toList)
    | none =>
      match lcRFind truncated [' '] with
      | some lastSpace =>
        if 10 * lastSpace > 4 * maxLength then
          String.mk (lcStrip (t.take lastSpace) ++ "...".toList)
        else String.mk (lcStrip truncated ++ "...".toList)
      | none => String.mk (lcStrip truncated ++ "...".toList)

/-! ## `_extract_context` -/

/-- First index `i > 0` whose character is upper-case (`first_capital_after`). -/
def firstCapAfterAux (i : Nat) : List Char → Option Nat
  | [] => none
  | c :: t => if c.isUpper && i > 0 then some i else firstCapAfterAux (i + 1) t

/-- `_extract_context(text, keyword)`. -/
def extract_context (text keyword : String) : Option String :=
  if text = "" then none
  else
    let tl := (pyLower text).toList
    match lcFind tl keyword.toList with
    | none => none
    | some idx =>
      let cs := text.toList
      let start := idx - 80
      let stop := min cs.length (idx + keyword.toList.length + 150)
      let context0 := lcStrip ((cs.take stop).drop start)
      let context1 :=
        if start > 0 then
          let firstPeriod := lcFind context0 ". ".toList
          let firstCap := firstCapAfterAux 0 context0
          match firstPeriod with
          | some fp =>
            if fp < 30 then context0.drop (fp + 2)
            else
              match firstCap with
              | some fc => if fc < 20 then context0.drop fc else context0
              | none => context0
          | none =>
            match firstCap with
            | some fc => if fc < 20 then context0.drop fc else context0
            | none => context0
        else context0
      let context2 :=
        lcRepl (lcRepl (lcRepl (lcRepl (lcRepl (lcRepl context1
          "\x27\x7d" "") "\"\x7d" "") "\x7b\x27" "") "\x7b\"" "")
          "\x27, \x27" ", ") "\", \"" ", "
      some (String.mk (lcStrip context2))

/-! ## Theme normalization and quote categorization -/

/-- `specific_topics` of `_normalize_theme_id` (insertion-ordered). -/
def specific_topics : List (String × String) :=
  [("snowbird", "snowbird"), ("poker", "poker"), ("rv life", "rv_life"),
   ("rv ", "rv_life"), ("rv water", "rv_life"), ("trailer park", "rv_life"),
   ("dinner out", "social_outings"), ("dinner with", "social_outings"),
   ("lunch out", "social_outings"), ("lunch with", "social_outings"),
   ("restaurant", "social_outings"), ("chinese food", "social_outings"),
   ("sushi", "social_outings"), ("storage facility", "daily_errands"),
   ("lockout", "daily_errands"), ("getting keys", "daily_errands"),
   ("visitors to", "visitors"), ("canadian visitors", "visitors"),
   ("nature of ai", "conversations"), ("nature of consciousness", "conversations"),
   ("ai consciousness", "conversations"), ("human vs ai", "conversations"),
   ("problem-solving", "conversations")]

/-- `common_words` of `_normalize_theme_id`. -/
def common_words : List String :=
  ["the", "a", "an", "and", "or", "with", "about", "for", "to", "of",
   "in", "on", "at", "by", "progress", "challenges", "conditions",
   "management", "incident", "question", "lifestyle", "connections",
   "perspectives", "adventures", "technical", "recent", "new", "old",
   "outing", "like", "living", "facility"]

/-- `word_mappings` of `_normalize_theme_id` (insertion-ordered). -/
def word_mappings : List (String × String) :=
  [("back", "health_recovery"), ("sleep", "health_recovery"),
   ("pain", "health_recovery"), ("injury", "health_recovery"),
   ("recovery", "health_recovery"),
   ("canadian", "visitors"), ("visitors", "visitors"),
   ("human", "conversations"), ("consciousness", "conversations"),
   ("empathy", "conversations"), ("problem", "conversations"),
   ("solving", "conversations"), ("capabilities", "conversations"),
   ("emergency", "daily_life"), ("contact", "daily_life"),
   ("errands", "daily_errands"), ("keys", "daily_errands"),
   ("storage", "daily_errands"),
   ("water", "rv_life"), ("tank", "rv_life")]

/-- `re.findall(r'[a-z]+', s)`: maximal runs of ASCII lower-case letters. -/
def lcLowerRuns : List Char → List Char → List (List Char)
  | [], cur => if cur.isEmpty then [] else [cur.reverse]
  | c :: t, cur =>
    if 97 ≤ c.toNat && c.toNat ≤ 122 then lcLowerRuns t (c :: cur)
    else if cur.isEmpty then lcLowerRuns t []
    else cur.reverse :: lcLowerRuns t []

/-- The category scan with blocker check, written once: it is the literal
`PRIORITY 2` loop that appears verbatim in both `_normalize_theme_id` and
`_categorize_quote`. -/
def categoryLookup (tl : String) : Option String :=
  (topic_categories.find? (fun cat =>
    let blockers := (agetA cat.1 category_blockers).getD []
    (!blockers.any (fun b => pyIn b tl)) && cat.2.any (fun kw => pyIn kw tl))).map
    (fun cat => cat.1)

/-- `_normalize_theme_id`. -/
def normalize_theme_id (topic : String) : String :=
  if topic = "" then "general"
  else
    let tl := pyStrip (pyLower topic)
    match specific_topics.find? (fun p => pyIn p.1 tl) with
    | some p => p.2
    | none =>
      match categoryLookup tl with
      | some cat => cat
      | none =>
        let words := (lcLowerRuns tl.toList []).map String.mk
        match words.find? (fun w => !(common_words.contains w) && pyLen w > 2) with
        | some pw =>
          match agetA pw word_mappings with
          | some th => th
          | none => pw
        | none => "general"

/-- `specific_keywords` of `_categorize_quote` (insertion-ordered). -/
def specific_keywords : List (String × String) :=
  [("snowbird", "snowbird"), ("snow bird", "snowbird"),
   ("rv life", "rv_life"), ("rv community", "rv_life"), ("rv park", "rv_life"),
   ("trailer park", "rv_life"), ("arizona", "snowbird"), ("winter in", "snowbird"),
   ("poker", "poker"), ("card game", "poker"),
   ("dinner out", "social_outings"), ("went to dinner", "social_outings"),
   ("restaurant", "social_outings"), ("chinese food", "social_outings"),
   ("sushi", "social_outings"),
   ("my son", "family"), ("my daughter", "family"), ("my wife", "family"),
   ("my husband", "family"), ("grandkid", "family"), ("grandchild", "family"),
   ("crocus", "nature"), ("flower", "nature"), ("garden", "nature"),
   ("spring", "nature"), ("bloom", "nature"),
   ("my cat", "pets"), ("my dog", "pets"), ("the cat", "pets"), ("the dog", "pets"),
   ("fell off", "health_recovery"), ("back injury", "health_recovery"),
   ("back pain", "health_recovery"), ("bruised", "health_recovery"),
   ("hurt when", "health_recovery"), ("getting better", "health_recovery"),
   ("little bit better", "health_recovery"), ("recovery", "health_recovery"),
   ("fell and", "health_recovery"), ("fall and", "health_recovery"),
   ("hit the concrete", "health_recovery"), ("muscles", "health_recovery"),
   ("doctor", "health"), ("hospital", "health"),
   ("book", "books"), ("reading", "books"), ("tv show", "books"),
   ("watching", "books"),
   ("my friend", "friends"), ("old friend", "friends"), ("friendship", "friends")]

/-- `_categorize_quote`. -/
def categorize_quote (quote : String) (conversation_topics : List String) : String :=
  let ql := pyLower quote
  match specific_keywords.find? (fun p => pyIn p.1 ql) with
  | some p => p.2
  | none =>
    match categoryLookup ql with
    | some cat => cat
    | none =>
      match conversation_topics.find? (fun t => t ≠ "" && !(is_meta_topic t)) with
      | some t => normalize_theme_id t
      | none => "general"

/-- `display_names` of `_generate_theme_display_name`. -/
def display_names : List (String × String) :=
  [("family", "Family"), ("health", "Health & Wellness"),
   ("travel", "Travel & Outings"), ("home", "Home & Daily Life"),
   ("work", "Work & Career"), ("hobbies", "Hobbies & Interests"),
   ("friends", "Friends & Social"), ("memories", "Memories"),
   ("food", "Food & Cooking"), ("nature", "Nature & Garden"),
   ("pets", "Pets"), ("music", "Music"), ("books", "Books & Entertainment"),
   ("sports", "Sports & Exercise"), ("faith", "Faith & Spirituality"),
   ("weather", "Weather"), ("shopping", "Shopping & Errands"),
   ("snowbird", "Snowbird Life"), ("poker", "Poker & Games"),
   ("rv_life", "RV Life"), ("social_outings", "Dining & Outings"),
   ("daily_errands", "Daily Errands"), ("health_recovery", "Health & Recovery"),
   ("friends_social", "Friends & Social"), ("visitors", "Visitors & Guests"),
   ("daily_life", "Daily Life"), ("conversations", "Conversations")]

/-- `_generate_theme_display_name` (the `original_topics` argument is unused
in the source as well). -/
def generate_theme_display_name (theme_id : String)
    (_original_topics : List String) : String :=
  match agetA theme_id display_names with
  | some n => n
  | none =>
    if theme_id ≠ "" then pyTitle (pyReplace theme_id "_" " ")
    else "Life Stories"

/-! ## Health events: detection (`_detect_health_events`) -/

/-- A `related_symptoms` entry; `_detect_health_events` writes no `event_id`
key, `_link_symptoms_to_causes` does, modelled by the `Option`. -/
structure RelSym where
  symptom : String
  status : String
  event_id : Option String := none
deriving DecidableEq

/-- A consolidated health event (the dict shape shared by
`_detect_health_events`, `_consolidate_health_events` and
`_link_symptoms_to_causes`). -/
structure HealthEvent where
  event_id : String := ""
  type : String := "symptom"
  severity : String := "low"
  title : String := ""
  description : String := ""
  detected_on : String := ""
  detected_on_formatted : String := ""
  last_mentioned : String := ""
  last_mentioned_formatted : String := ""
  body_part : Option String := none
  keyword : String := ""
  related_symptoms : List RelSym := []
  status : String := "active"
  needs_family_followup : Bool := false
  mentions_count : Nat := 0
  family_actions : List String := []
  linked_to : Option String := none
  linked_to_title : Option String := none
deriving DecidableEq

/-- The fall-keyword family checked throughout the source. -/
def fall_words : List String := ["fell", "fall", "fallen", "ladder"]

/-- `any(w in lowered for w in ['fell', 'fall', 'fallen', 'ladder'])`. -/
def textHasFall (lowered : String) : Bool :=
  fall_words.any (fun w => pyIn w lowered)

/-- Python truthiness of an optional string (`None` and empty are falsy). -/
def optFalsy : Option String → Bool
  | none => true
  | some s => s = ""

/-- The per-conversation fall test of the `_detect_health_events` loop:
summary (when non-empty), each red flag, and user-only transcript content
(when the transcript is non-empty). -/
def convFallHit (c : Conv) : Bool :=
  (c.analysis.health.summary ≠ "" && textHasFall (pyLower c.analysis.health.summary)) ||
  c.analysis.health.red_flags.any (fun f => textHasFall (pyLower f.text)) ||
  (c.transcript ≠ "" && textHasFall (pyLower (extract_user_content c.transcript)))

/-- The body-part candidates one conversation contributes, in the order the
loop consults them (summary, then red flags, then user transcript). The
running `if not body_part: body_part = ...` chain is `firstSome` over the
concatenation. -/
def convBodyPartCands (c : Conv) : List (Option String) :=
  (if c.analysis.health.summary ≠ "" then
    [extract_body_part (pyLower c.analysis.health.summary)] else []) ++
  c.analysis.health.red_flags.map (fun f => extract_body_part (pyLower f.text)) ++
  (if c.transcript ≠ "" then
    [extract_body_part (pyLower (extract_user_content c.transcript))] else [])

/-- The `(first_mention_date, last_mention_date)` accumulators: updated only
for conversations with a non-empty health summary and non-empty timestamp. -/
def detectDates (convs : List Conv) : Option String × Option String :=
  convs.foldl
    (fun acc c =>
      if c.analysis.health.summary ≠ "" && c.timestamp ≠ "" then
        ((match acc.1 with
          | none => some c.timestamp
          | some f => if pyLt c.timestamp f then some c.timestamp else some f),
         (match acc.2 with
          | none => some c.timestamp
          | some l => if pyLt l c.timestamp then some c.timestamp else some l))
      else acc)
    (none, none)

/-- Python `max(items, key=len of first component)`: first maximum wins. -/
def pyMaxByLen : List (String × String) → (String × String) → (String × String)
  | [], dflt => dflt
  | x :: t, _ => t.foldl (fun m y => if pyLen y.1 > pyLen m.1 then y else m) x

/-- The symptom keywords scanned when populating `related_symptoms`. -/
def detect_symptom_keywords : List String := ["pain", "sleep", "sore", "tired", "stiff"]

/-- The readable symptom name (`symptom_name`) for one keyword. -/
def detectSymptomName (bp : Option String) (kw : String) : String :=
  match bp with
  | some b =>
    if b ≠ "" && kw ≠ "sleep" then pyTitle b ++ " " ++ kw
    else if kw = "sleep" then "Sleep difficulties"
    else pyTitle kw
  | none => if kw = "sleep" then "Sleep difficulties" else pyTitle kw

/-- Inner keyword loop over one summary text, threading the `found_symptoms`
set. -/
def detectRelOne (bp : Option String) (lower : String) :
    List String → List String → List String × List RelSym
  | [], found => (found, [])
  | kw :: kws, found =>
    if pyIn kw lower && !(found.contains kw) then
      let r := detectRelOne bp lower kws (kw :: found)
      (r.1, { symptom := detectSymptomName bp kw, status := "ongoing" } :: r.2)
    else detectRelOne bp lower kws found

/-- Outer loop over all health summaries. -/
def detectRelAux (bp : Option String) :
    List (String × String) → List String → List RelSym
  | [], _ => []
  | (text, _) :: rest, found =>
    let r := detectRelOne bp (pyLower text) detect_symptom_keywords found
    r.2 ++ detectRelAux bp rest r.1

/-- The `related_symptoms` list attached to the primary injury. -/
def detectRelSymptoms (summaries : List (String × String)) (bp : Option String) :
    List RelSym :=
  detectRelAux bp summaries []

/-- The `all_health_summaries` accumulator: `(text, timestamp)` for every
conversation with a non-empty health summary, in order. -/
def detectSummaries (conversations : List Conv) : List (String × String) :=
  conversations.filterMap (fun c =>
    if c.analysis.health.summary ≠ "" then some (c.analysis.health.summary, c.timestamp)
    else none)

/-- The `has_fall` accumulator (summaries, red flags, user transcripts, and
the knowledge base when non-empty). -/
def detectHasFall (conversations : List Conv) (knowledge_base : String) : Bool :=
  conversations.any convFallHit ||
    (knowledge_base ≠ "" && textHasFall (pyLower knowledge_base))

/-- The `body_part` accumulator: first hit in scan order, the knowledge base
last. -/
def detectBodyPart (conversations : List Conv) (knowledge_base : String) :
    Option String :=
  firstSome (conversations.flatMap convBodyPartCands ++
    (if knowledge_base ≠ "" then [extract_body_part (pyLower knowledge_base)] else []))

/-- The `mention_count` accumulator: one per conversation whose summary
mentions a fall keyword, plus one per conversation whose user-transcript
content does (red flags and knowledge base do not contribute). -/
def detectMentionCount (conversations : List Conv) : Nat :=
  conversations.foldl
    (fun n c =>
      n + (if c.analysis.health.summary ≠ "" &&
             textHasFall (pyLower c.analysis.health.summary) then 1 else 0)
        + (if c.transcript ≠ "" &&
             textHasFall (pyLower (extract_user_content c.transcript)) then 1 else 0))
    0

/-- The primary injury event built when a fall was detected and at least
one health summary exists. -/
def detectPrimaryEvent (env : Env T) (conversations : List Conv)
    (knowledge_base : String) : HealthEvent :=
  let summaries := detectSummaries conversations
  let body_part := detectBodyPart conversations knowledge_base
  let dates := detectDates conversations
  let best := pyMaxByLen summaries ("", "")
  let title :=
    match body_part with
    | some bp => if bp ≠ "" then "Fall Incident - " ++ pyTitle bp ++ " Injury" else "Fall Incident"
    | none => "Fall Incident"
  { event_id := "HE_fall_001", type := "injury", severity := "high",
    title := title, description := smart_truncate best.1 400,
    detected_on := dates.1.getD "",
    detected_on_formatted := format_date env (dates.1.getD ""),
    last_mentioned := dates.2.getD "",
    last_mentioned_formatted := format_date env (dates.2.getD ""),
    body_part := body_part, keyword := "fall",
    related_symptoms := detectRelSymptoms summaries body_part,
    status := "active", needs_family_followup := true,
    mentions_count := Nat.max (detectMentionCount conversations) summaries.length,
    family_actions := [] }

/-- `_detect_health_events`: at most one primary fall event, created only
when a fall keyword was seen somewhere and at least one conversation carries
a non-empty health summary. -/
def detect_health_events (env : Env T) (conversations : List Conv)
    (knowledge_base : String) : List HealthEvent :=
  if detectHasFall conversations knowledge_base &&
      !(detectSummaries conversations).isEmpty then
    [detectPrimaryEvent env conversations knowledge_base]
  else []

/-! ## Health events: consolidation (`_consolidate_health_events`) -/

/-- One raw mention as produced by `_extract_health_mentions`. -/
structure Mention where
  timestamp : String := ""
  source : String := ""
  text : String := ""
  keyword : String := ""
  body_part : Option String := none
  type : String := "symptom"
  severity : String := "moderate"
deriving DecidableEq

/-- First truthy `body_part` in the sorted mention list. -/
def mentionsBodyPart (ms : List Mention) : Option String :=
  firstSome (ms.map (fun m =>
    match m.body_part with
    | some b => if b = "" then none else some b
    | none => none))

/-- Longest string wins, first maximum on ties (Python `max(..., key=len)`). -/
def pyMaxStrByLen : List String → String → String
  | [], dflt => dflt
  | x :: t, _ => t.foldl (fun m y => if pyLen y > pyLen m then y else m) x

/-- The `sorted_mentions` of one consolidation group: the dated mentions
sorted stably by timestamp, or all mentions when none is dated. -/
def consolidateSorted (mentions : List Mention) : List Mention :=
  let dated := mentions.filter (fun m => m.timestamp ≠ "")
  if !dated.isEmpty then stableSortBy (fun a b => pyLe a.timestamp b.timestamp) dated
  else mentions

/-- The severity rule of `_consolidate_health_events` for one group. -/
def consolidateSeverity (event_key : String) (first : Mention) (n : Nat) : String :=
  if fall_words.contains first.keyword || pyIn "fall" event_key then "high"
  else if first.type = "injury" then "high"
  else if n ≥ 3 then "moderate"
  else "low"

/-- The event built for one consolidation group from its sorted mentions. -/
def consolidateEvent (env : Env T) (event_key : String)
    (sorted_mentions : List Mention) (first : Mention) : HealthEvent :=
  let last := sorted_mentions.getLastD first
  let body_part := mentionsBodyPart sorted_mentions
  let isFall := fall_words.contains first.keyword || pyIn "fall" event_key
  let severity := consolidateSeverity event_key first sorted_mentions.length
  let title :=
    if isFall then
      match body_part with
      | some bp => "Fall Incident - " ++ pyTitle bp ++ " Injury"
      | none => "Fall Incident"
    else
      match body_part with
      | some bp => pyTitle bp ++ " " ++ pyTitle first.keyword
      | none => pyTitle (pyReplace first.keyword "_" " ")
  let event_id := env.md5hex8 (event_key ++ "_" ++ first.timestamp)
  let descriptions := (sorted_mentions.map (fun m => m.text)).filter (fun t => t ≠ "")
  { event_id := "HE_" ++ event_id, type := first.type, severity := severity,
    title := title,
    description := smart_truncate (pyMaxStrByLen descriptions title) 350,
    detected_on := first.timestamp,
    detected_on_formatted := format_date env first.timestamp,
    last_mentioned := last.timestamp,
    last_mentioned_formatted := format_date env last.timestamp,
    body_part := body_part, keyword := first.keyword, related_symptoms := [],
    status := "active", needs_family_followup := severity == "high",
    mentions_count := sorted_mentions.length, family_actions := [] }

/-- Consolidation of one `(event_key, mentions)` group. Mirrors one
iteration of the `_consolidate_health_events` loop: sort the dated mentions
(all mentions when none is dated), pick first/last, derive severity, title,
id, description. -/
def consolidateGroup (env : Env T) (event_key : String) (mentions : List Mention) :
    Option HealthEvent :=
  if mentions.isEmpty then none
  else
    match consolidateSorted mentions with
    | [] => none
    | first :: rest => some (consolidateEvent env event_key (first :: rest) first)

/-- `_consolidate_health_events` over the insertion-ordered
`event_mentions` dict. -/
def consolidate_health_events (env : Env T)
    (event_mentions : List (String × List Mention)) : List HealthEvent :=
  event_mentions.filterMap (fun p => consolidateGroup env p.1 p.2)

/-! ## Health events: symptom linking (`_link_symptoms_to_causes`) -/

/-- Membership in the fall-injury sublist (`'fall' in title.lower() or
'fall' in keyword.lower()`). -/
def fallTitled (e : HealthEvent) : Bool :=
  pyIn "fall" (pyLower e.title) || pyIn "fall" (pyLower e.keyword)

/-- STEP 1A: merge all fall incidents into one primary event. -/
def mergeFalls (env : Env T) (fall_injuries : List HealthEvent) : List HealthEvent :=
  match fall_injuries with
  | [] => []
  | f0 :: _ =>
    let primary :=
      match fall_injuries.find? (fun i => !(optFalsy i.body_part)) with
      | some p => p
      | none => f0
    let title0 :=
      match primary.body_part with
      | some bp =>
        if bp ≠ "" then "Fall Incident - " ++ pyTitle bp ++ " Injury" else "Fall Incident"
      | none => "Fall Incident"
    let all_descriptions := (fall_injuries.map (fun i => i.description)).filter (fun d => d ≠ "")
    let total_mentions := fall_injuries.foldl (fun n i => n + i.mentions_count) 0
    let earliest := fall_injuries.foldl
      (fun cur i =>
        if i.detected_on ≠ "" && (cur = "" || pyLt i.detected_on cur) then i.detected_on else cur)
      primary.detected_on
    let latest := fall_injuries.foldl
      (fun cur i =>
        if i.last_mentioned ≠ "" && (cur = "" || pyLt cur i.last_mentioned) then i.last_mentioned
        else cur)
      primary.last_mentioned
    let all_body_parts := dedupKeep (fall_injuries.filterMap (fun i =>
      match i.body_part with
      | some b => if b = "" then none else some b
      | none => none))
    let best_description := pyMaxStrByLen all_descriptions primary.description
    let bodyPick :=
      if !all_body_parts.isEmpty then some (env.pickFromSet all_body_parts)
      else primary.body_part
    let title :=
      if !all_body_parts.isEmpty then
        "Fall Incident - " ++ pyTitle (env.pickFromSet all_body_parts) ++ " Injury"
      else title0
    [{ primary with
        title := title,
        description := smart_truncate best_description 300,
        mentions_count := total_mentions,
        detected_on := earliest,
        detected_on_formatted := format_date env earliest,
        last_mentioned := latest,
        last_mentioned_formatted := format_date env latest,
        body_part := bodyPick }]

/-- STEP 1B: merge one body-part group of non-fall injuries. -/
def mergeBodyGroup (env : Env T) : List HealthEvent → Option HealthEvent
  | [] => none
  | [single] => some single
  | primary :: rest =>
    let body_injuries := primary :: rest
    let all_descriptions := (body_injuries.map (fun i => i.description)).filter (fun d => d ≠ "")
    let total_mentions := body_injuries.foldl (fun n i => n + i.mentions_count) 0
    let earliest := body_injuries.foldl
      (fun cur i =>
        if i.detected_on ≠ "" && (cur = "" || pyLt i.detected_on cur) then i.detected_on else cur)
      primary.detected_on
    let latest := body_injuries.foldl
      (fun cur i =>
        if i.last_mentioned ≠ "" && (cur = "" || pyLt cur i.last_mentioned) then i.last_mentioned
        else cur)
      primary.last_mentioned
    let best_description := pyMaxStrByLen all_descriptions primary.description
    some { primary with
            description := smart_truncate best_description 300,
            mentions_count := total_mentions,
            detected_on := earliest,
            detected_on_formatted := format_date env earliest,
            last_mentioned := latest,
            last_mentioned_formatted := format_date env latest }

/-- `injuries_by_body`: insertion-ordered grouping by
`injury.get('body_part') or 'general'`. -/
def groupByBody (injuries : List HealthEvent) : List (String × List HealthEvent) :=
  injuries.foldl
    (fun acc i =>
      let body := match i.body_part with
        | some b => if b = "" then "general" else b
        | none => "general"
      aupdA body (fun l => l ++ [i]) [] acc)
    []

/-- STEP 2 guard: timeline check then body-part wildcard check. -/
def linkGuard (symptom cause : HealthEvent) : Bool :=
  (pyLe cause.detected_on symptom.detected_on || cause.detected_on = "") &&
  (cause.body_part == symptom.body_part || optFalsy cause.body_part ||
   optFalsy symptom.body_part)

/-- Scan the merged injuries for the first compatible cause; on a match the
cause gains a `related_symptoms` entry and the symptom is marked linked. -/
def linkOne (s : HealthEvent) : List HealthEvent → List HealthEvent × HealthEvent
  | [] => ([], s)
  | c :: cs =>
    if linkGuard s c then
      ({ c with related_symptoms := c.related_symptoms ++
          [{ symptom := s.title, status := "ongoing", event_id := some s.event_id }] } :: cs,
       { s with linked_to := some c.event_id, linked_to_title := some c.title })
    else
      let r := linkOne s cs
      (c :: r.1, r.2)

/-- Fold of the STEP 2 loop over all symptoms. -/
def linkAll : List HealthEvent → List HealthEvent → List HealthEvent × List HealthEvent
  | causes, [] => (causes, [])
  | causes, s :: ss =>
    let r1 := linkOne s causes
    let r2 := linkAll r1.1 ss
    (r2.1, r1.2 :: r2.2)

/-- `{'high': 0, 'moderate': 1, 'low': 2}.get(severity, 2)`. -/
def severity_rank (sev : String) : Nat :=
  if sev = "high" then 0 else if sev = "moderate" then 1 else 2

/-- `x.get('detected_on', '') or 'zzz'`. -/
def linkSortKeyDate (e : HealthEvent) : String :=
  if e.detected_on = "" then "zzz" else e.detected_on

/-- The final sort key comparison `(severity rank, detected_on or 'zzz')`. -/
def linkSortLe (a b : HealthEvent) : Bool :=
  severity_rank a.severity < severity_rank b.severity ||
  (severity_rank a.severity = severity_rank b.severity &&
   pyLe (linkSortKeyDate a) (linkSortKeyDate b))

/-- The merged injury list built by STEP 1A and STEP 1B. -/
def mergedInjuries (env : Env T) (events : List HealthEvent) : List HealthEvent :=
  let injuries := events.filter (fun e => e.type == "injury")
  let fall_injuries := injuries.filter fallTitled
  let non_fall_injuries := injuries.filter (fun i => !(fallTitled i))
  mergeFalls env fall_injuries ++
    (groupByBody non_fall_injuries).filterMap (fun g => mergeBodyGroup env g.2)

/-- `_link_symptoms_to_causes`. -/
def link_symptoms_to_causes (env : Env T) (events : List HealthEvent) :
    List HealthEvent :=
  let symptoms := events.filter (fun e => e.type == "symptom")
  let other := events.filter (fun e => !(e.type == "injury") && !(e.type == "symptom"))
  let linked := linkAll (mergedInjuries env events) symptoms
  stableSortBy linkSortLe (linked.1 ++ linked.2 ++ other)

/-! ## `_build_in_their_words` -/

/-- One stored quote record. -/
structure QuoteRec where
  quote : String
  date : String
  timestamp : String
  mood : String
  mood_emoji : String
deriving DecidableEq

/-- The per-theme accumulator of the `theme_data` defaultdict. `None` initial
timestamps are modelled by the empty string: the source guards every use
with Python truthiness, which identifies the two. -/
structure ThemeData where
  quotes : List QuoteRec := []
  original_topics : List String := []
  icon : String := "💬"
  first_mentioned : String := ""
  last_mentioned : String := ""
deriving DecidableEq

/-- One output theme bucket. -/
structure Theme where
  theme_id : String
  theme_name : String
  icon : String
  priority : Nat
  context : String
  quotes : List QuoteRec
  total_quotes : Nat
  first_mentioned : String
  last_updated : String
deriving DecidableEq

/-- The value returned by `_build_in_their_words`. -/
structure InTheirWords where
  themes : List Theme
  meta_filtered_count : Nat
  total_themes : Nat
deriving DecidableEq

/-- Conversation-level mood to `(emoji, label)` (lines of
`_build_in_their_words`). -/
def convMoodEmojiLabel (mood : String) : String × String :=
  let ml := pyLower mood
  if ["positive", "happy", "good", "cheerful"].any (fun w => pyIn w ml) then ("😊", "Happy")
  else if ["negative", "sad", "upset", "worried"].any (fun w => pyIn w ml) then ("😔", "Reflective")
  else ("😌", "Relaxed")

/-- The meta-theme retry: when categorization lands on a meta theme id, scan
the conversation topics for a non-meta topic whose normalized id is not meta
either. -/
def resolveThemeId (quote_stripped : String) (topics : List String) : String :=
  let theme0 := categorize_quote quote_stripped topics
  if theme0 = "introduction" || theme0 = "conversations" || theme0 = "general" then
    match topics.find? (fun t => t ≠ "" && !(is_meta_topic t) &&
        (let alt := normalize_theme_id t
         !(alt = "introduction" || alt = "conversations" || alt = "general"))) with
    | some t => normalize_theme_id t
    | none => theme0
  else theme0

/-- Processing of a single memorable quote: filters, categorization,
sentiment, and the `theme_data` update. Returns the updated accumulator and
meta-filter counter. -/
def processQuote (td : List (String × ThemeData)) (metaCount : Nat)
    (quote : String) (topics : List String) (timestamp date_fmt : String)
    (convMood : String × String) : List (String × ThemeData) × Nat :=
  if quote = "" then (td, metaCount)
  else
    let qs := pyStrip quote
    if is_meta_quote qs then (td, metaCount + 1)
    else if (pySplit qs).length < 5 then (td, metaCount)
    else
      let theme_id := resolveThemeId qs topics
      if theme_id = "general" then (td, metaCount)
      else
        let icon := (agetA theme_id theme_icons).getD "💬"
        let qm := analyze_quote_sentiment qs convMood.1 convMood.2
        let upd : ThemeData → ThemeData := fun d =>
          let d1 := { d with
            icon := icon,
            quotes := d.quotes ++
              [({ quote := qs, date := date_fmt, timestamp := timestamp,
                  mood := qm.2, mood_emoji := qm.1 } : QuoteRec)],
            original_topics := d.original_topics ++ (if topics.isEmpty then [] else topics) }
          { d1 with
            first_mentioned :=
              if d1.first_mentioned = "" || pyLt timestamp d1.first_mentioned then timestamp
              else d1.first_mentioned,
            last_mentioned :=
              if d1.last_mentioned = "" || pyLt d1.last_mentioned timestamp then timestamp
              else d1.last_mentioned }
        (aupdA theme_id upd ({} : ThemeData) td, metaCount)

/-- Processing of one conversation in the main loop. -/
def processConv (env : Env T) (acc : List (String × ThemeData) × Nat) (conv : Conv) :
    List (String × ThemeData) × Nat :=
  let topics := conv.analysis.conversation.topics
  let timestamp := conv.timestamp
  let date_fmt := format_date env timestamp
  let cm := convMoodEmojiLabel conv.analysis.conversation.mood
  conv.analysis.conversation.memorable_quotes.foldl
    (fun a q => processQuote a.1 a.2 q topics timestamp date_fmt cm) acc

/-- Dedup key: `q['quote'].lower().strip()[:50]`. -/
def quoteKey (q : QuoteRec) : String := pyTake (pyStrip (pyLower q.quote)) 50

/-- Deduplication by key, keeping first occurrences (the `seen` set). -/
def dedupByKeyAux (key : α → String) (seen : List String) : List α → List α
  | [] => []
  | x :: t =>
    if seen.contains (key x) then dedupByKeyAux key seen t
    else x :: dedupByKeyAux key (key x :: seen) t

/-- Build one output theme from a `theme_data` entry, or drop it. -/
def buildTheme (env : Env T) (elder_name : String) (p : String × ThemeData)
    (metaCount : Nat) : Option Theme × Nat :=
  if p.2.quotes.isEmpty then (none, metaCount)
  else
    let theme_name := generate_theme_display_name p.1 p.2.original_topics
    if is_meta_topic theme_name || is_meta_topic p.1 then (none, metaCount + 1)
    else
      let unique0 := dedupByKeyAux quoteKey [] p.2.quotes
      let uq := stableSortBy (fun a b => pyLe b.timestamp a.timestamp) unique0
      let context := elder_name ++ " has shared " ++ toString uq.length ++
        " memorable moments about " ++ pyLower theme_name ++ "."
      (some { theme_id := p.1, theme_name := theme_name, icon := p.2.icon,
              priority := uq.length, context := context, quotes := uq.take 5,
              total_quotes := uq.length,
              first_mentioned := format_date env p.2.first_mentioned,
              last_updated := format_date env p.2.last_mentioned }, metaCount)

/-- The final theme-building loop, threading `meta_filtered_count`. -/
def buildThemes (env : Env T) (elder_name : String) :
    List (String × ThemeData) → Nat → List Theme × Nat
  | [], mc => ([], mc)
  | p :: rest, mc =>
    match buildTheme env elder_name p mc with
    | (some t, mc2) =>
      let r := buildThemes env elder_name rest mc2
      (t :: r.1, r.2)
    | (none, mc2) => buildThemes env elder_name rest mc2

/-- `_build_in_their_words`. -/
def build_in_their_words (env : Env T) (conversations : List Conv)
    (elder_name : String) : InTheirWords :=
  let acc := conversations.foldl (processConv env) ([], 0)
  let bt := buildThemes env elder_name acc.1 acc.2
  let themes := stableSortBy (fun a b => decide (b.total_quotes ≤ a.total_quotes)) bt.1
  { themes := themes, meta_filtered_count := bt.2, total_themes := themes.length }

/-! ## `_generate_summary` -/

/-- The summary section. -/
structure Summary where
  total_conversations : Nat
  first_conversation_date : Option String
  last_conversation_date : Option String
  days_since_last_conversation : Option Int
  overall_engagement : String
  mood_trend : String
  mood_context : Option String
  status : String
deriving DecidableEq

/-- Engagement score `{'high': 3, 'moderate': 2, 'low': 1}.get(eng.lower(), 2)`. -/
def engagement_score (eng : String) : Nat :=
  (agetA (pyLower eng) [("high", 3), ("moderate", 2), ("low", 1)]).getD 2

/-- Mood score over the recent window in `_generate_summary`. -/
def summaryMoodScore (mood : String) : Nat :=
  let ml := pyLower mood
  if ["positive", "happy", "good"].any (fun w => pyIn w ml) then 3
  else if ["negative", "sad", "upset", "anxious"].any (fun w => pyIn w ml) then 1
  else 2

/-- `_generate_summary`. Float threshold tests `avg >= 2.5` and `avg >= 1.5`
are rendered exactly over the integers as `2*sum >= 5*n` and `2*sum >= 3*n`. -/
def generate_summary (env : Env T) (conversations : List Conv)
    (health_events : List HealthEvent) : Summary :=
  if conversations.isEmpty then
    { total_conversations := 0, first_conversation_date := none,
      last_conversation_date := none, days_since_last_conversation := none,
      overall_engagement := "No data", mood_trend := "No data",
      mood_context := none, status := "no_conversations" }
  else
    let first_ts := (conversations.head?.map Conv.timestamp).getD ""
    let last_ts := (conversations.getLast?.map Conv.timestamp).getD ""
    let first_conv : Option T := if first_ts ≠ "" then some (env.toLocal first_ts) else none
    let last_conv : Option T := if last_ts ≠ "" then some (env.toLocal last_ts) else none
    let days_since : Option Int := last_conv.map env.daysSinceNow
    let scores := conversations.map (fun c => engagement_score c.analysis.conversation.engagement)
    let sumS := scores.foldl (· + ·) 0
    let n := scores.length
    let engagement :=
      if 2 * sumS ≥ 5 * n then "High" else if 2 * sumS ≥ 3 * n then "Moderate" else "Low"
    let mood_scores := (takeLast 5 conversations).map
      (fun c => summaryMoodScore c.analysis.conversation.mood)
    let sumM := mood_scores.foldl (· + ·) 0
    let m := mood_scores.length
    let mood :=
      if 2 * sumM ≥ 5 * m then "Positive" else if 2 * sumM ≥ 3 * m then "Neutral" else "Low"
    let mood_context :=
      (health_events.filter (fun e => e.severity == "high" && e.status == "active")).head?.map
        (fun e => "Recent " ++ pyLower e.title ++ " may be affecting mood (" ++
          e.detected_on_formatted ++ ")")
    let status :=
      match days_since with
      | some d => if d ≠ 0 && d < 7 then "active" else "inactive"
      | none => "inactive"
    { total_conversations := conversations.length,
      first_conversation_date := first_conv.map env.fmtLongDate,
      last_conversation_date := last_conv.map env.fmtLongDate,
      days_since_last_conversation := days_since,
      overall_engagement := engagement, mood_trend := mood,
      mood_context := mood_context, status := status }

/-! ## `_identify_alerts` -/

/-- One alert record. -/
structure Alert where
  type : String
  severity : String
  message : String
  event_id : Option String := none
  date : String
  date_formatted : String
  action_needed : Bool
  suggested_action : Option String := none
deriving DecidableEq

/-- `false_alarm_keywords`. -/
def false_alarm_keywords : List String :=
  ["technical", "ai", "glitch", "error", "system", "connectivity"]

/-- `is_false_alarm(msg)`: empty/falsy flags are false alarms; otherwise the
concern text (or the flag text) is scanned for the keyword list. Dict flags
are truthy. -/
def isFalseAlarm : PyFlag → Bool
  | .str s =>
    if s = "" then true
    else false_alarm_keywords.any (fun kw => pyIn kw (pyLower s))
  | .obj concern r =>
    false_alarm_keywords.any (fun kw => pyIn kw (pyLower (concern.getD r)))

/-- The alert built from one qualifying health event. -/
def mkEventAlert (e : HealthEvent) : Alert :=
  { type := "health_event", severity := "high",
    message := e.title ++ ": " ++ e.description,
    event_id := some e.event_id, date := e.detected_on,
    date_formatted := e.detected_on_formatted,
    action_needed := true,
    suggested_action := some "Follow up about this health event" }

/-- The health-event alert loop with the `fall_alert_added` flag. -/
def eventAlertsAux : Bool → List HealthEvent → List Alert
  | _, [] => []
  | fallAdded, e :: rest =>
    if e.severity == "high" && e.needs_family_followup then
      if pyIn "fall" (pyLower e.title) then
        if fallAdded then eventAlertsAux fallAdded rest
        else mkEventAlert e :: eventAlertsAux true rest
      else mkEventAlert e :: eventAlertsAux fallAdded rest
    else eventAlertsAux fallAdded rest

/-- The red-flag alert loop: a flag is skipped when it reads as a false
alarm, or when any high-severity health event already exists. -/
def flagAlerts (env : Env T) (conversations : List Conv)
    (health_events : List HealthEvent) : List Alert :=
  conversations.flatMap (fun conv =>
    conv.analysis.health.red_flags.filterMap (fun flag =>
      if !(isFalseAlarm flag) then
        if !health_events.isEmpty &&
            health_events.any (fun e => e.severity == "high") then none
        else
          some { type := "health_concern", severity := "high", message := flag.text,
                 date := conv.timestamp,
                 date_formatted := format_date env conv.timestamp,
                 action_needed := true }
      else none))

/-- Deduplication key: any message mentioning a fall collapses to
`fall_incident`; otherwise the first 50 characters of the lowered message. -/
def alertDedupKey (a : Alert) : String :=
  let msg := pyLower a.message
  if pyIn "fall" msg then "fall_incident" else pyTake msg 50

/-- `{'high': 0, 'medium': 1}.get(severity, 2)`. -/
def alertSevRank (a : Alert) : Nat :=
  if a.severity = "high" then 0 else if a.severity = "medium" then 1 else 2

/-- `_identify_alerts`. -/
def identify_alerts (env : Env T) (conversations : List Conv)
    (health_events : List HealthEvent) : List Alert :=
  let alerts := eventAlertsAux false health_events ++
    flagAlerts env conversations health_events
  let unique := dedupByKeyAux alertDedupKey [] alerts
  (stableSortBy (fun a b => decide (alertSevRank a ≤ alertSevRank b)) unique).take 5

/-! ## `_generate_weekly_updates` and helpers -/

/-- The `conversations_this_week` block. -/
structure ConvWeek where
  count : Nat
  count_label : String
  days : List String
  days_label : String
  period : String
deriving DecidableEq

/-- The `overall_mood` block (`score` is the float average, modelled in ℚ). -/
structure MoodBox where
  value : String
  emoji : String
  description : String
  score : ℚ
deriving DecidableEq

/-- The `engagement` block. -/
structure EngBox where
  value : String
  description : String
  score : ℚ
deriving DecidableEq

/-- The `latest_conversation` block. -/
structure LatestConv where
  date : String
  duration : String
  duration_label : String
  narrative : String
  key_moments : List String
  topics_loved : List String
  topics_loved_label : String
  mood : String
  mood_emoji : String
  engagement : String
deriving DecidableEq

/-- One day-by-day highlight. -/
structure Highlight where
  day_date : String
  mood : String
  mood_emoji : String
  duration : String
  duration_label : String
  description : String
deriving DecidableEq

/-- The `weekly_updates` section. -/
structure WeeklyUpdates where
  conversations_this_week : ConvWeek
  overall_mood : MoodBox
  engagement : EngBox
  latest_conversation : Option LatestConv
  highlights : List Highlight
  period : String
deriving DecidableEq

/-- `_empty_weekly_updates`. -/
def empty_weekly_updates (elder_name : String) : WeeklyUpdates :=
  { conversations_this_week :=
      { count := 0, count_label := "No calls yet", days := [], days_label := "",
        period := "This Week" },
    overall_mood :=
      { value := "Unknown", emoji := "❓", description := "No conversations yet", score := 0 },
    engagement :=
      { value := "Unknown",
        description := "Waiting for " ++ elder_name ++ " to make their first call",
        score := 0 },
    latest_conversation := none, highlights := [], period := "This Week" }

/-- Mood mapping of `_generate_latest_conversation_summary` (emoji, label). -/
def latestMoodEmojiLabel (mood : String) : String × String :=
  let ml := pyLower mood
  if ["positive", "happy", "good"].any (fun w => pyIn w ml) then ("😊", "Positive")
  else if ["negative", "sad", "upset"].any (fun w => pyIn w ml) then ("😔", "Reflective")
  else ("😌", "Relaxed")

/-- Key moments contributed by the first two stories. -/
def storyMoments (stories : List PyStory) : List String :=
  (stories.take 2).filterMap (fun st =>
    match st with
    | .obj topic details _ =>
      if topic ≠ "" then some ("Shared about " ++ pyLower topic)
      else if details ≠ "" then some ("Talked about " ++ pyTake details 50 ++ "...")
      else none
    | _ => none)

/-- Topic-based key moments, skipping topics already mentioned. -/
def addTopicMoments (kms : List String) (topics : List String) : List String :=
  (topics.take 3).foldl
    (fun acc t =>
      if t ≠ "" && !(acc.any (fun km => pyIn (pyLower t) (pyLower km))) then
        acc ++ ["Discussed " ++ t]
      else acc)
    kms

/-- `_generate_conversation_narrative` (the `engagement` and `quotes`
arguments are unused in the source body as well). -/
def generate_conversation_narrative (elder_name mood : String)
    (_engagement : String) (topics : List String) (stories : List PyStory)
    (_quotes : List String) (health : PyHealth) : String :=
  let ml := pyLower mood
  let p1 :=
    if ["positive", "happy", "good", "great"].any (fun w => pyIn w ml) then
      elder_name ++ " had a wonderful conversation today!"
    else if ["negative", "sad", "low"].any (fun w => pyIn w ml) then
      elder_name ++ " had a quieter conversation today."
    else elder_name ++ " had a nice chat today."
  let p2 : List String :=
    match stories with
    | st :: _ =>
      (match st with
       | .obj topic details _ =>
         if topic ≠ "" then ["They shared a story about " ++ pyLower topic ++ "."]
         else if details ≠ "" && pyLen details > 20 then
           ["They shared memories about " ++ pyTake details 60 ++ "..."]
         else []
       | _ => [])
    | [] =>
      let main_topics := (topics.take 2).filter (fun t => t ≠ "" && !(is_meta_topic t))
      if !main_topics.isEmpty then
        ["They talked about " ++ pyLower (joinWith " and " main_topics) ++ "."]
      else []
  let p3 : List String :=
    if !health.red_flags.isEmpty then
      ["They also mentioned some health concerns worth noting."]
    else if health.summary ≠ "" &&
        (pyIn "better" (pyLower health.summary) ||
         pyIn "improving" (pyLower health.summary)) then
      ["They mentioned feeling better recently."]
    else []
  joinWith " " ([p1] ++ p2 ++ p3)

/-- `_generate_latest_conversation_summary`. -/
def generate_latest_conversation_summary (env : Env T) (conv : Conv)
    (elder_name : String) : LatestConv :=
  let conv_data := conv.analysis.conversation
  let health_data := conv.analysis.health
  let stories := conv.analysis.biography.stories
  let date_formatted :=
    if conv.timestamp ≠ "" then env.fmtFull (env.toLocal conv.timestamp) else "Unknown"
  let duration := calculate_duration conv.transcript
  let narrative := generate_conversation_narrative elder_name conv_data.mood
    conv_data.engagement conv_data.topics stories conv_data.memorable_quotes health_data
  let km1 := addTopicMoments (storyMoments stories) conv_data.topics
  let km2 :=
    if !health_data.red_flags.isEmpty then km1 ++ ["Mentioned some health concerns"]
    else km1
  let topics_loved := (conv_data.topics.filter (fun t => t ≠ "" && !(is_meta_topic t))).take 5
  let ml := latestMoodEmojiLabel conv_data.mood
  { date := date_formatted, duration := duration,
    duration_label := if duration ≠ "" then duration ++ " minutes" else "Brief call",
    narrative := narrative, key_moments := km2.take 5, topics_loved := topics_loved,
    topics_loved_label :=
      if !topics_loved.isEmpty then joinWith ", " topics_loved else "General conversation",
    mood := ml.2, mood_emoji := ml.1,
    engagement := pyTitle conv_data.engagement }

/-- Mood mapping of `_generate_weekly_highlights` (label, emoji). -/
def weeklyHighlightMood (mood : String) : String × String :=
  let ml := pyLower mood
  if ["positive", "happy", "good"].any (fun w => pyIn w ml) then ("Positive", "😊")
  else if ["negative", "sad", "upset"].any (fun w => pyIn w ml) then ("Reflective", "😔")
  else ("Neutral", "😌")

/-- `_generate_weekly_highlights`. -/
def generate_weekly_highlights (env : Env T) (conversations : List Conv)
    (_elder_name : String) : List Highlight :=
  (conversations.reverse.map (fun conv =>
    let day_date :=
      if conv.timestamp ≠ "" then env.fmtDayMonth (env.toLocal conv.timestamp) else "Unknown"
    let m := weeklyHighlightMood conv.analysis.conversation.mood
    let duration := calculate_duration conv.transcript
    let topics := conv.analysis.conversation.topics
    let description :=
      match conv.analysis.biography.stories with
      | .obj topic _ _ :: _ =>
        if topic ≠ "" then "Shared stories about " ++ pyLower topic ++ "."
        else "Shared personal memories."
      | _ =>
        if !topics.isEmpty then
          let clean := (topics.take 2).filter (fun t => t ≠ "" && !(is_meta_topic t))
          if !clean.isEmpty then "Discussed " ++ pyLower (joinWith " and " clean) ++ "."
          else "Had a nice conversation."
        else "Had a pleasant chat."
    ({ day_date := day_date, mood := m.1, mood_emoji := m.2, duration := duration,
       duration_label := if duration ≠ "" then duration ++ " min" else "Brief",
       description := description } : Highlight))).take 7

/-- Mood score/label pair of `_generate_weekly_updates`. -/
def weeklyMoodScoreLabel (mood : String) : Nat × String :=
  let ml := pyLower mood
  if ["positive", "happy", "good", "cheerful", "great"].any (fun w => pyIn w ml) then (3, "positive")
  else if ["negative", "sad", "upset", "anxious", "worried"].any (fun w => pyIn w ml) then (1, "negative")
  else (2, "neutral")

/-- Engagement score of `_generate_weekly_updates`. -/
def weeklyEngScore (eng : String) : Nat :=
  let el := pyLower eng
  if pyIn "high" el then 3 else if pyIn "low" el then 1 else 2

/-- `_generate_weekly_updates`. -/
def generate_weekly_updates [LinearOrder T] (env : Env T) (conversations : List Conv)
    (elder_name : String) : WeeklyUpdates :=
  let week_convs0 := conversations.filter (fun c =>
    c.timestamp ≠ "" && decide (env.nowMinusDays 7 ≤ env.toLocal c.timestamp))
  let pair :=
    if week_convs0.isEmpty then
      ((if conversations.length ≥ 3 then takeLast 3 conversations else conversations),
        "Recent")
    else (week_convs0, "This Week")
  let week_convs := pair.1
  let period_label := pair.2
  match week_convs.getLast? with
  | none => empty_weekly_updates elder_name
  | some latest_conv =>
    let conv_days := dedupKeep (week_convs.filterMap (fun c =>
      if c.timestamp ≠ "" then some (env.fmtDayName (env.toLocal c.timestamp)) else none))
    let moods := week_convs.map (fun c => weeklyMoodScoreLabel c.analysis.conversation.mood)
    let mood_scores := moods.map (fun p => p.1)
    let mood_labels := moods.map (fun p => p.2)
    let avg_mood : ℚ :=
      if mood_scores.isEmpty then 2
      else ((mood_scores.foldl (· + ·) 0 : Nat) : ℚ) / (mood_scores.length : ℚ)
    let unique_moods := dedupKeep mood_labels
    let consistency :=
      if unique_moods.length = 1 then "Consistent all week"
      else if unique_moods.length = 2 && !(unique_moods.contains "negative") then
        "Generally positive"
      else if unique_moods.contains "negative" && mood_labels.getLastD "" = "negative" then
        "Declining recently"
      else "Varies"
    let overall_mood : MoodBox :=
      if (5 : ℚ) / 2 ≤ avg_mood then
        { value := "Positive", emoji := "✨", description := consistency, score := avg_mood }
      else if (3 : ℚ) / 2 ≤ avg_mood then
        { value := "Neutral", emoji := "😊", description := consistency, score := avg_mood }
      else
        { value := "Low", emoji := "😔", description := consistency, score := avg_mood }
    let eng_scores := week_convs.map (fun c => weeklyEngScore c.analysis.conversation.engagement)
    let avg_eng : ℚ :=
      if eng_scores.isEmpty then 2
      else ((eng_scores.foldl (· + ·) 0 : Nat) : ℚ) / (eng_scores.length : ℚ)
    let has_stories := week_convs.any (fun c => !c.analysis.biography.stories.isEmpty)
    let has_quotes := week_convs.any (fun c => !c.analysis.conversation.memorable_quotes.isEmpty)
    let engagement : EngBox :=
      if (5 : ℚ) / 2 ≤ avg_eng then
        { value := "High",
          description :=
            if has_stories then "Sharing stories actively"
            else if has_quotes then "Opening up in conversations"
            else "Very engaged",
          score := avg_eng }
      else if (3 : ℚ) / 2 ≤ avg_eng then
        { value := "Moderate", description := "Participating regularly", score := avg_eng }
      else { value := "Low", description := "Brief conversations", score := avg_eng }
    { conversations_this_week :=
        { count := week_convs.length,
          count_label := toString week_convs.length ++ " call" ++
            (if week_convs.length ≠ 1 then "s" else ""),
          days := conv_days,
          days_label := if !conv_days.isEmpty then joinWith ", " conv_days else "Various days",
          period := period_label },
      overall_mood := overall_mood, engagement := engagement,
      latest_conversation := some (generate_latest_conversation_summary env latest_conv elder_name),
      highlights := generate_weekly_highlights env week_convs elder_name,
      period := period_label }

/-! ## `_generate_health_insights_v2` and helpers -/

/-- The inline health alert of the insights section. -/
structure HIAlert where
  title : String
  message : String
  date : String
  time : String
  severity : String
deriving DecidableEq

/-- One wellbeing-timeline entry (the `event` key is optional). -/
structure WEntry where
  date : String
  wellbeing : Int
  event : Option String := none
deriving DecidableEq

/-- One health-timeline entry. -/
structure HTEntry where
  date_range : String
  status : String
  details : String
  badge : String
  badge_type : String
deriving DecidableEq

/-- One habit card. -/
structure Habit where
  label : String
  icon : String
  frequency : String
  active : Bool
deriving DecidableEq

/-- The `health_insights` section. -/
structure HealthInsights where
  alert : Option HIAlert
  wellbeing_timeline : List WEntry
  health_timeline : List HTEntry
  habits : List Habit
deriving DecidableEq

/-- A `_group_health_by_period` period. -/
structure Period where
  date_range : String
  status : String
  details : String
  trend : String
deriving DecidableEq

/-- The daily wellbeing score of one conversation (mood base, red-flag and
summary adjustments, clamped to 60..100). -/
def wellbeingScore (c : Conv) : Int :=
  let ml := pyLower c.analysis.conversation.mood
  let health := c.analysis.health
  let base : Int :=
    if ["positive", "happy", "good", "great"].any (fun w => pyIn w ml) then 90
    else if ["negative", "sad", "low", "tired"].any (fun w => pyIn w ml) then 70
    else 82
  let base := if !health.red_flags.isEmpty then base - 10 else base
  let base :=
    if health.summary ≠ "" then
      let sl := pyLower health.summary
      let b1 :=
        if ["not feeling well", "tired", "pain", "hurt"].any (fun w => pyIn w sl) then base - 8
        else base
      if ["better", "improving", "good"].any (fun w => pyIn w sl) then b1 + 5 else b1
    else base
  max 60 (min 100 base)

/-- The tracked event phrase of one conversation, if any. -/
def wellbeingEvent (c : Conv) : Option String :=
  let health := c.analysis.health
  if !health.red_flags.isEmpty then
    (health.red_flags.head?).map (fun f => pyTake f.text 30)
  else if health.summary ≠ "" then
    let sl := pyLower health.summary
    if ["cough", "cold", "sick", "pain", "fell", "tired"].any (fun w => pyIn w sl) then
      (["cough", "cold", "not feeling well", "tired", "pain", "fell"].find?
        (fun p => pyIn p sl)).map pyTitle
    else none
  else none

/-- The `daily_scores`/`daily_events` accumulation over conversations within
the last two weeks (dict assignment overwrites per date key). -/
def insightsDaily [LinearOrder T] (env : Env T) (conversations : List Conv) :
    List (String × Int) × List (String × String) :=
  conversations.foldl
    (fun acc c =>
      if c.timestamp = "" then acc
      else
        let lt := env.toLocal c.timestamp
        if lt < env.nowMinusDays 14 then acc
        else
          let key := env.fmtMonthDay lt
          let scores := asetA key (wellbeingScore c) acc.1
          let events :=
            match wellbeingEvent c with
            | some ev => asetA key ev acc.2
            | none => acc.2
          (scores, events))
    ([], [])

/-- `_group_health_by_period`. -/
def group_health_by_period [LinearOrder T] (env : Env T)
    (conversations : List Conv) : List Period :=
  let recent := if conversations.length ≥ 5 then takeLast 5 conversations else conversations
  let dates := recent.filterMap (fun c =>
    if c.timestamp ≠ "" then some (env.toLocal c.timestamp) else none)
  let health_notes := recent.flatMap (fun c =>
    (if c.analysis.health.summary ≠ "" then [c.analysis.health.summary] else []) ++
    c.analysis.health.red_flags.filterMap (fun f =>
      match f with
      | .str s => some s
      | _ => none))
  match dates, health_notes.isEmpty with
  | d0 :: drest, false =>
    let mn := drest.foldl (fun a b => if b < a then b else a) d0
    let mx := drest.foldl (fun a b => if a < b then b else a) d0
    let combined := pyLower (joinWith " " health_notes)
    let trend :=
      if pyIn "better" combined || pyIn "improving" combined then "improving"
      else if pyIn "worse" combined || pyIn "not feeling well" combined then "declining"
      else "stable"
    [{ date_range := env.fmtMonthDayLong mn ++ "-" ++ env.fmtDayNum mx,
       status := match health_notes.head? with
         | some h => pyTake h 50
         | none => "General wellness",
       details := pyTake (joinWith " " (health_notes.take 2)) 150,
       trend := trend }]
  | _, _ => []

/-- `habit_keywords`: keyword to (label, icon, frequency). -/
def habit_keywords : List (String × (String × String × String)) :=
  [("tea", ("Herbal tea routine", "coffee", "Daily")),
   ("walk", ("Daily walks", "heart", "Regular")),
   ("tv", ("Watching shows", "tv", "Entertainment")),
   ("read", ("Reading", "book-open", "Regular")),
   ("family", ("Family time", "users", "Social")),
   ("friend", ("Social connections", "users", "Social")),
   ("garden", ("Gardening", "flower", "Hobby")),
   ("cook", ("Cooking", "utensils", "Daily")),
   ("church", ("Faith activities", "heart", "Regular")),
   ("exercise", ("Exercise routine", "activity", "Regular"))]

/-- `_extract_habits`. -/
def extract_habits (conversations : List Conv) : List Habit :=
  let mentions := conversations.foldl
    (fun acc c =>
      let tl := pyLower c.transcript
      habit_keywords.foldl
        (fun acc2 hk => if pyIn hk.1 tl then aupdA hk.1 (· + 1) 0 acc2 else acc2)
        acc)
    ([] : List (String × Nat))
  let sortedM := stableSortBy (fun a b => decide (b.2 ≤ a.2)) mentions
  let habits := (sortedM.take 4).filterMap (fun p =>
    if p.2 ≥ 1 then
      (agetA p.1 habit_keywords).map (fun info =>
        { label := info.1, icon := info.2.1, frequency := info.2.2, active := true })
    else none)
  if habits.isEmpty then
    [{ label := "Regular conversations", icon := "message-circle",
       frequency := "Ongoing", active := true },
     { label := "Sharing memories", icon := "brain",
       frequency := "Mental stimulation", active := true }]
  else habits

/-- `_generate_health_insights_v2`. -/
def generate_health_insights_v2 [LinearOrder T] (env : Env T)
    (conversations : List Conv) (health_events : List HealthEvent)
    (elder_name : String) : HealthInsights :=
  let daily := insightsDaily env conversations
  let sorted_keys := stableSortBy pyLe (daily.1.map (fun p => p.1))
  let wellbeing_timeline0 := sorted_keys.filterMap (fun k =>
    (agetA k daily.1).map (fun v =>
      ({ date := k, wellbeing := v, event := agetA k daily.2 } : WEntry)))
  let wellbeing_timeline :=
    if wellbeing_timeline0.isEmpty then
      (List.range 7).map (fun i =>
        ({ date := env.fmtMonthDay (env.nowMinusDays (6 - i)), wellbeing := 85 } : WEntry))
    else wellbeing_timeline0
  let alert0 : Option HIAlert :=
    if !health_events.isEmpty then
      ((health_events.filter (fun e => e.status == "active")).getLast?).map (fun latest =>
        { title := "Health Note",
          message := elder_name ++ " " ++ latest.description,
          date := latest.detected_on_formatted, time := "",
          severity := if latest.severity == "high" then "warning" else "info" })
    else none
  let alert :=
    match alert0 with
    | some a => some a
    | none =>
      if !conversations.isEmpty then
        ((takeLast 3 conversations).reverse.find?
          (fun c => !c.analysis.health.red_flags.isEmpty)).map (fun c =>
            let lt : Option T :=
              if c.timestamp ≠ "" then some (env.toLocal c.timestamp) else none
            { title := "Minor Health Note",
              message := elder_name ++ " mentioned some health concerns in recent conversation.",
              date := match lt with
                | some t0 => env.fmtMonthDay t0
                | none => "Recently",
              time := match lt with
                | some t0 => env.fmtTime t0
                | none => "",
              severity := "info" })
      else none
  let periods := group_health_by_period env conversations
  let health_timeline0 := (takeLast 3 periods).map (fun p =>
    if p.trend = "declining" then
      ({ date_range := p.date_range, status := p.status, details := p.details,
         badge := "Needs attention", badge_type := "danger" } : HTEntry)
    else if p.trend = "improving" then
      { date_range := p.date_range, status := p.status, details := p.details,
        badge := "Improving", badge_type := "success" }
    else
      { date_range := p.date_range, status := p.status, details := p.details,
        badge := "Monitoring", badge_type := "warning" })
  let health_timeline :=
    if health_timeline0.isEmpty then
      [{ date_range := "This week", status := "Generally well",
         details := elder_name ++ " has been in good spirits during conversations.",
         badge := "Good", badge_type := "success" }]
    else health_timeline0
  { alert := alert, wellbeing_timeline := wellbeing_timeline,
    health_timeline := health_timeline, habits := extract_habits conversations }

/-! ## `_generate_life_story` and helpers -/

/-- One converted story of the life-story view. -/
structure LSStory where
  title : String
  date_shared : String
  excerpt : String
  key_details : List String
deriving DecidableEq

/-- One life-story theme. -/
structure LSTheme where
  id : String
  title : String
  story_count : Nat
  preview : Option String
  stories : List LSStory
deriving DecidableEq

/-- One life-timeline entry. -/
structure TimelineEntry where
  era : String
  label : String
  detail : String
  icon : String
deriving DecidableEq

/-- The life-story progress block. -/
structure LSProgress where
  total_conversations : Nat
  status_label : String
  total_stories : Nat
  total_themes : Nat
  completeness_percent : Nat
deriving DecidableEq

/-- The `life_story` section. -/
structure LifeStory where
  progress : LSProgress
  themes : List LSTheme
  timeline : List TimelineEntry
deriving DecidableEq

/-- `title_patterns` of `_generate_story_title`. -/
def title_patterns : List (String × String) :=
  [("remember", "A Memory"), ("my mother", "About Mother"),
   ("my father", "About Father"), ("when i was", "Childhood Memory"),
   ("years ago", "Looking Back"), ("we used to", "How Things Were"),
   ("my favorite", "A Favorite Memory")]

/-- `_generate_story_title`. -/
def generate_story_title (quote theme_name : String) : String :=
  if quote = "" then theme_name
  else
    let ql := pyLower quote
    match title_patterns.find? (fun p => pyIn p.1 ql) with
    | some p => p.2
    | none =>
      let words := (pySplit quote).take 5
      if words.length ≥ 5 then joinWith " " words ++ "..." else pyTake quote 30

/-- A word character for the regex boundary `\b` (ASCII suffices here). -/
def isWordChar (c : Char) : Bool := c.isAlphanum || c = '_'

/-- An ASCII digit. -/
def isDigitCh (c : Char) : Bool := 48 ≤ c.toNat && c.toNat ≤ 57

/-- Attempt to match `(19[4-9][0-9]|20[0-2][0-9])\b` at the current
position (the boundary before is checked by the caller). -/
def matchYearAt : List Char → Option String
  | a :: b :: c :: d :: rest =>
    if isDigitCh a && isDigitCh b && isDigitCh c && isDigitCh d &&
        ((a = '1' && b = '9' && 52 ≤ c.toNat && c.toNat ≤ 57) ||
         (a = '2' && b = '0' && 48 ≤ c.toNat && c.toNat ≤ 50)) &&
        (match rest with
         | [] => true
         | r :: _ => !isWordChar r) then
      some (String.mk [a, b, c, d])
    else none
  | _ => none

/-- `re.findall(r'\b(19[4-9][0-9]|20[0-2][0-9])\b', text)`. The scanner
advances one character at a time; because any position inside a matched year
is preceded by a digit, no boundary can open there, so this yields the same
match list as the non-overlapping regex scan. -/
def findYearsAux : Option Char → List Char → List String
  | _, [] => []
  | prev, c :: t =>
    let boundaryOk :=
      match prev with
      | some p => !isWordChar p
      | none => true
    match (if boundaryOk then matchYearAt (c :: t) else none) with
    | some y => y :: findYearsAux (some c) t
    | none => findYearsAux (some c) t

/-- Digits of a matched year to `int(...)`. -/
def yearToNat (s : String) : Nat :=
  s.toList.foldl (fun n c => n * 10 + (c.toNat - 48)) 0

/-- The location list scanned by `_generate_life_timeline`. -/
def life_locations : List String :=
  ["Poland", "Canada", "Toronto", "Vancouver", "Chicago", "Arizona", "England", "London"]

/-- `_generate_life_timeline` (it never reads the knowledge base, despite
receiving it). -/
def generate_life_timeline (env : Env T) (conversations : List Conv)
    (_knowledge_base : String) (elder_name : String) : List TimelineEntry :=
  let years_mentioned := dedupKeep (conversations.flatMap (fun c =>
    findYearsAux none c.transcript.toList))
  let locations_mentioned := dedupKeep (conversations.flatMap (fun c =>
    life_locations.filter (fun loc => pyIn (pyLower loc) (pyLower c.transcript))))
  let sorted_years := stableSortBy pyLe years_mentioned
  let t1 : List TimelineEntry :=
    match sorted_years.head? with
    | some earliest =>
      (if yearToNat earliest < 1980 then
        [{ era := earliest ++ "s", label := "Early memories",
           detail := "Family history", icon := "heart" }]
       else []) ++
      (match (sorted_years.filter (fun y =>
          1970 ≤ yearToNat y && yearToNat y ≤ 1990)).head? with
       | some cy =>
         [{ era := cy, label := elder_name ++ " born",
            detail :=
              if !locations_mentioned.isEmpty then env.pickFromSet locations_mentioned
              else "Unknown",
            icon := "baby" }]
       | none => [])
    | none => []
  let timeline := t1 ++
    [({ era := "2025", label := "Present day", detail := "Conversations with Aila",
        icon := "home" } : TimelineEntry)]
  if timeline.length < 2 then
    [{ era := "Past", label := "Life experiences", detail := "Stories being captured",
       icon := "book-open" },
     { era := "Present", label := "Current chapter", detail := "Conversations with Aila",
       icon := "home" }]
  else timeline

/-- `min(95, int((total_stories / 100) * 100))`. The IEEE-754 double round
trip equals `total_stories` for every value in `0..95` except `29`, `57` and
`58`, where it is one less (checked exhaustively), and the `min` makes every
value above `95` collapse to `95`. -/
def completenessCap (total_stories : Nat) : Nat :=
  min 95 (if total_stories = 29 || total_stories = 57 || total_stories = 58 then
    total_stories - 1 else total_stories)

/-- `_generate_life_story`. -/
def generate_life_story [LinearOrder T] (env : Env T) (conversations : List Conv)
    (knowledge_base : String) (elder_name : String) : LifeStory :=
  let total_conversations := conversations.length
  let themes_data := (build_in_their_words env conversations elder_name).themes
  let total_stories := themes_data.foldl (fun n t => n + t.total_quotes) 0
  let total_themes := themes_data.length
  let completeness0 := completenessCap total_stories
  let completeness :=
    if completeness0 < 10 then max 5 (total_conversations * 3) else completeness0
  let status_label :=
    if completeness < 20 then "Early chapters being written..."
    else if completeness < 50 then "Story taking shape..."
    else if completeness < 80 then "Rich narrative emerging..."
    else "Comprehensive life story captured"
  let themes := (themes_data.take 6).map (fun theme =>
    let stories := (theme.quotes.take 4).map (fun q =>
      ({ title := generate_story_title q.quote theme.theme_name,
         date_shared := q.date, excerpt := q.quote, key_details := [] } : LSStory))
    ({ id := theme.theme_id, title := theme.theme_name,
       story_count := theme.quotes.length,
       preview :=
         if stories.isEmpty then some ("Stories about " ++ pyLower theme.theme_name)
         else none,
       stories := stories } : LSTheme))
  { progress :=
      { total_conversations := total_conversations, status_label := status_label,
        total_stories := total_stories, total_themes := total_themes,
        completeness_percent := completeness },
    themes := themes,
    timeline := generate_life_timeline env conversations knowledge_base elder_name }

/-! ## `_build_life_story_profile` / `_analyze_biography_progress` -/

/-- A `detail`/`mentioned_on` record (places, work, hobbies). -/
structure ProfileItem where
  detail : String
  mentioned_on : String
deriving DecidableEq

/-- A person record. -/
structure PersonItem where
  name : String
  relationship : String
  mentioned_on : String
deriving DecidableEq

/-- A life-event record. -/
structure EventItem where
  event : String
  mentioned_on : String
deriving DecidableEq

/-- A collected story record. -/
structure StoryItem where
  topic : String
  details : String
  people : List String
  mentioned_on : String
deriving DecidableEq

/-- One suggested chapter. -/
structure ChapterSuggestion where
  chapter : String
  description : String
deriving DecidableEq

/-- The profile progress block. -/
structure ProfileProgress where
  chapters_captured : Nat
  total_chapters : Nat
  percentage : Nat
  next_areas : List ChapterSuggestion
deriving DecidableEq

/-- The full life-story profile. -/
structure Profile where
  places : List ProfileItem
  people : List PersonItem
  work_career : List ProfileItem
  interests_hobbies : List ProfileItem
  life_events : List EventItem
  stories : List StoryItem
  chapters_captured : List String
  progress : ProfileProgress
deriving DecidableEq

/-- The accumulator of the profile-building loop (the `chapters` set is kept
in first-insertion order; it is sorted before use). -/
structure ProfileAcc where
  places : List ProfileItem := []
  people : List PersonItem := []
  work_career : List ProfileItem := []
  interests_hobbies : List ProfileItem := []
  life_events : List EventItem := []
  stories : List StoryItem := []
  chapters : List String := []
deriving DecidableEq

/-- Set insertion for `chapters_captured`. -/
def addChapter (c : String) (l : List String) : List String :=
  if l.contains c then l else l ++ [c]

/-- Processing of one biography story. -/
def profileAddStory (ts : String) (acc : ProfileAcc) (story : PyStory) : ProfileAcc :=
  match story with
  | .other => acc
  | _ =>
    let tdp :=
      match story with
      | .obj t d p => (t, d, p)
      | .str s => ("story", s, [])
      | .other => ("", "", [])
    let topic := tdp.1
    let details := tdp.2.1
    let people := tdp.2.2
    let tl := pyLower topic
    let acc :=
      if ["live", "home", "city", "place"].any (fun w => pyIn w tl) &&
          pyStrip details ≠ "" then
        { acc with
          places := acc.places ++ [{ detail := pyStrip details, mentioned_on := ts }],
          chapters := addChapter "Places & Locations" acc.chapters }
      else acc
    let acc :=
      if ["work", "job", "career"].any (fun w => pyIn w tl) &&
          pyStrip details ≠ "" then
        { acc with
          work_career := acc.work_career ++ [{ detail := pyStrip details, mentioned_on := ts }],
          chapters := addChapter "Work & Career" acc.chapters }
      else acc
    let acc :=
      if ["hobby", "interest", "love", "enjoy"].any (fun w => pyIn w tl) &&
          pyStrip details ≠ "" then
        { acc with
          interests_hobbies :=
            acc.interests_hobbies ++ [{ detail := pyStrip details, mentioned_on := ts }],
          chapters := addChapter "Interests & Hobbies" acc.chapters }
      else acc
    { acc with stories := acc.stories ++
        [{ topic := topic, details := details, people := people, mentioned_on := ts }] }

/-- Processing of one biography person. -/
def profileAddPerson (ts : String) (acc : ProfileAcc) (person : PyPerson) : ProfileAcc :=
  let nr :=
    match person with
    | .obj name rel => some (name.getD "", rel.getD "mentioned")
    | .str s => some (s, "mentioned")
    | .other => none
  match nr with
  | some (name, rel) =>
    if pyStrip name ≠ "" then
      { acc with
        people := acc.people ++
          [{ name := pyStrip name, relationship := rel, mentioned_on := ts }],
        chapters := addChapter "Important People" acc.chapters }
    else acc
  | none => acc

/-- Processing of one timeline event. -/
def profileAddEvent (ts : String) (acc : ProfileAcc) (ev : PyTimelineEvent) : ProfileAcc :=
  let text? :=
    match ev with
    | .obj e d =>
      let e0 := e.getD ""
      some (if e0 ≠ "" then e0 else d.getD "")
    | .str s => some s
    | .other => none
  match text? with
  | some text =>
    if text ≠ "" && pyLen (pyStrip text) ≥ 5 then
      { acc with
        life_events := acc.life_events ++ [{ event := pyStrip text, mentioned_on := ts }],
        chapters := addChapter "Life Events" acc.chapters }
    else acc
  | none => acc

/-- Deduplication by a non-empty lowered/stripped key (the per-section dedup
loop at the end of `_build_life_story_profile`). -/
def dedupByNEKey (key : α → String) (seen : List String) : List α → List α
  | [] => []
  | x :: t =>
    let v := key x
    if v ≠ "" && !(seen.contains v) then x :: dedupByNEKey key (v :: seen) t
    else dedupByNEKey key seen t

/-- `all_chapters` of `_suggest_biography_areas_v2` (insertion-ordered). -/
def all_chapters : List (String × String) :=
  [("Places & Locations", "Where have you lived? Where have you traveled?"),
   ("Important People", "Family, friends, mentors who shaped your life"),
   ("Work & Career", "What did you do for work?"),
   ("Interests & Hobbies", "What do you love doing?"),
   ("Childhood", "Growing up, early memories"),
   ("Family", "Parents, siblings, children"),
   ("Travel & Adventures", "Favorite trips, adventures"),
   ("Life Events", "Marriages, moves, achievements")]

/-- `_suggest_biography_areas_v2`. -/
def suggest_biography_areas_v2 (chapters_captured : List String) :
    List ChapterSuggestion :=
  ((all_chapters.filter (fun c => !(chapters_captured.contains c.1))).map
    (fun c => ({ chapter := c.1, description := c.2 } : ChapterSuggestion))).take 3

/-- `_build_life_story_profile`. The percentage
`int((chapters_count / 8) * 100)` is exact in floats (multiples of 12.5),
hence `(chapters_count * 100) / 8` in ℕ. -/
def build_life_story_profile (conversations : List Conv) : Profile :=
  let acc := conversations.foldl
    (fun acc c =>
      let ts := c.timestamp
      let acc := c.analysis.biography.stories.foldl (profileAddStory ts) acc
      let acc := c.analysis.biography.people.foldl (profileAddPerson ts) acc
      c.analysis.biography.timeline_events.foldl (profileAddEvent ts) acc)
    ({} : ProfileAcc)
  let people := dedupByNEKey (fun p => pyStrip (pyLower p.name)) [] acc.people
  let places := dedupByNEKey (fun p => pyStrip (pyLower p.detail)) [] acc.places
  let work := dedupByNEKey (fun p => pyStrip (pyLower p.detail)) [] acc.work_career
  let hobbies := dedupByNEKey (fun p => pyStrip (pyLower p.detail)) [] acc.interests_hobbies
  let events := dedupByNEKey (fun p => pyStrip (pyLower p.event)) [] acc.life_events
  let chapters := stableSortBy pyLe acc.chapters
  { places := places, people := people, work_career := work,
    interests_hobbies := hobbies, life_events := events, stories := acc.stories,
    chapters_captured := chapters,
    progress :=
      { chapters_captured := chapters.length, total_chapters := 8,
        percentage := (chapters.length * 100) / 8,
        next_areas := suggest_biography_areas_v2 chapters } }

/-- The `biography_progress` section. -/
structure BioProgress where
  total_stories_captured : Nat
  life_story_profile : Profile
  knowledge_base_sections : Nat
  knowledge_base_words : Nat
  completeness_estimate : Nat
  next_areas_to_explore : List ChapterSuggestion
deriving DecidableEq

/-- `_analyze_biography_progress`. -/
def analyze_biography_progress (knowledge_base : String)
    (conversations : List Conv) : BioProgress :=
  let profile := build_life_story_profile conversations
  { total_stories_captured := profile.stories.length,
    life_story_profile := profile,
    knowledge_base_sections :=
      if knowledge_base ≠ "" then lcCount knowledge_base.toList "###".toList else 0,
    knowledge_base_words :=
      if knowledge_base ≠ "" then (pySplit knowledge_base).length else 0,
    completeness_estimate := profile.progress.percentage,
    next_areas_to_explore := profile.progress.next_areas }

/-! ## `generate_dashboard`

File-system access is parametrised: `conversations` stands for the records
`_load_conversations` reads from the tester's conversation files (the empty
list when there are none), `knowledge_base` for the knowledge-base file
content (empty when the file does not exist). The `'success': False` error
dict for an unknown tester is the `none` branch. -/

/-- The tester's signup data; `Option` models `dict.get` with defaults. -/
structure SignupData where
  theirName : Option String := none
  theirAge : Option String := none
  yourName : Option String := none
  yourEmail : Option String := none
  relationship : Option String := none
deriving DecidableEq

/-- One registry entry. -/
structure Tester where
  signup_data : SignupData := {}
deriving DecidableEq

/-- The `elder` block. -/
structure Elder where
  name : String
  age : String
deriving DecidableEq

/-- The `family` block. -/
structure FamilyBlock where
  name : String
  email : String
  relationship : String
deriving DecidableEq

/-- The complete dashboard report (`'success': True`). -/
structure Dashboard where
  beta_id : String
  elder : Elder
  family : FamilyBlock
  generated_at : String
  weekly_updates : WeeklyUpdates
  health_insights : HealthInsights
  life_story : LifeStory
  summary : Summary
  health_events : List HealthEvent
  in_their_words : InTheirWords
  biography_progress : BioProgress
  alerts : List Alert
deriving DecidableEq

/-- `generate_dashboard`. -/
def generate_dashboard [LinearOrder T] (env : Env T)
    (registry : List (String × Tester)) (beta_id : String)
    (conversations : List Conv) (knowledge_base : String) : Option Dashboard :=
  match agetA beta_id registry with
  | none => none
  | some tester =>
    let elder_name := tester.signup_data.theirName.getD "They"
    let health_events := detect_health_events env conversations knowledge_base
    some
      { beta_id := beta_id,
        elder := { name := elder_name,
                   age := tester.signup_data.theirAge.getD "Unknown" },
        family := { name := tester.signup_data.yourName.getD "Unknown",
                    email := tester.signup_data.yourEmail.getD "",
                    relationship := tester.signup_data.relationship.getD "family member" },
        generated_at := env.nowIso,
        weekly_updates := generate_weekly_updates env conversations elder_name,
        health_insights := generate_health_insights_v2 env conversations health_events elder_name,
        life_story := generate_life_story env conversations knowledge_base elder_name,
        summary := generate_summary env conversations health_events,
        health_events := health_events,
        in_their_words := build_in_their_words env conversations elder_name,
        biography_progress := analyze_biography_progress knowledge_base conversations,
        alerts := identify_alerts env conversations health_events }

/-! ## A concrete environment for closed evaluations

Counterexamples and witnesses must be closed statements; they instantiate
the abstract environment with the trivial datetime type `Unit`. None of the
facts checked at these instantiations depend on the environment. -/

/-- The trivial environment over `Unit`. -/
def unitEnv : Env Unit :=
  { toLocal := fun _ => (), nowMinusDays := fun _ => (), nowIso := "",
    fmtMDY := fun _ => "", fmtFull := fun _ => "", fmtDayName := fun _ => "",
    fmtDayMonth := fun _ => "", fmtMonthDay := fun _ => "",
    fmtMonthDayLong := fun _ => "", fmtDayNum := fun _ => "",
    fmtLongDate := fun _ => "", fmtTime := fun _ => "",
    daysSinceNow := fun _ => 0, md5hex8 := fun _ => "",
    pickFromSet := fun l => l.headD "" }

/-! ## Spec-side helper definitions -/

/-- The number of mentions that `_consolidate_health_events` actually counts
for a group: the dated mentions when at least one mention has a timestamp,
all mentions otherwise (this is the length of `sorted_mentions`). -/
def effectiveMentions (ms : List Mention) : Nat :=
  let dated := ms.filter (fun m => m.timestamp ≠ "")
  if !dated.isEmpty then dated.length else ms.length

/-- The fall-mention count that the detector accumulates in `mention_count`:
one per conversation whose health summary mentions a fall keyword plus one
per conversation whose user-transcript content does. -/
def fallMentionCount (convs : List Conv) : Nat :=
  convs.countP (fun c =>
    c.analysis.health.summary ≠ "" &&
    textHasFall (pyLower c.analysis.health.summary)) +
  convs.countP (fun c =>
    c.transcript ≠ "" &&
    textHasFall (pyLower (extract_user_content c.transcript)))

/-- Forget the `related_symptoms` of an event: the only field the STEP 2
linking loop mutates on a cause. -/
def stripRel (e : HealthEvent) : HealthEvent := { e with related_symptoms := [] }

/-- A stored quote that passed the meta filter and the five-word minimum. -/
def storedQuoteOk (q : QuoteRec) : Prop :=
  is_meta_quote q.quote = false ∧ 5 ≤ (pySplit q.quote).length

/-! ## Concrete instances for counterexamples and witnesses -/

/-- C1 counterexample input: a fall mentioned once, in the transcript only;
no conversation carries a health summary. -/
def cC1 : Conv := { transcript := "User: I fell down the stairs" }

/-- C1/C10 witness input: a fall mentioned in a health summary and in the
user transcript of the same conversation. -/
def convFallW : Conv :=
  { timestamp := "2025-03-01T10:00:00Z",
    transcript := "User: I fell off a ladder\nAila: oh dear",
    analysis := { health := { summary := "He fell off a ladder and hurt his back." } } }

/-- C2 counterexample group: three symptom mentions, exactly one dated. -/
def c2Mentions : List Mention :=
  [{ timestamp := "2025-01-01T00:00:00Z", keyword := "pain", type := "symptom",
     text := "pain in the evening" },
   { keyword := "pain", type := "symptom", text := "pain again" },
   { keyword := "pain", type := "symptom", text := "more pain" }]

/-- C2 witness group: a single fall-keyword mention. -/
def c2FallMentions : List Mention :=
  [{ timestamp := "2025-01-01T00:00:00Z", keyword := "fell", type := "injury",
     severity := "high", text := "she fell on the stairs" }]

/-- C2 witness event: the consolidation of `c2FallMentions`. -/
def c2FallEvent : HealthEvent :=
  (consolidateGroup unitEnv "injury_fall_primary" c2FallMentions).getD {}

/-- C3 witness injury. -/
def c3Inj : HealthEvent :=
  { event_id := "A", type := "injury", severity := "high", title := "Knee Bruise",
    keyword := "bruise", detected_on := "2025-01-01", body_part := some "knee",
    mentions_count := 1 }

/-- C3 witness symptom, dated after the injury, same body part. -/
def c3Sym : HealthEvent :=
  { event_id := "S", type := "symptom", severity := "low", title := "Knee Pain",
    keyword := "pain", detected_on := "2025-01-02", body_part := some "knee",
    mentions_count := 1 }

/-- C3 witness event list. -/
def c3Events : List HealthEvent := [c3Inj, c3Sym]

/-- The symptom as it appears in the linker output for `c3Events`. -/
def c3OutS : HealthEvent :=
  ((link_symptoms_to_causes unitEnv c3Events).find?
    (fun e => e.event_id == "S")).getD {}

/-- C4 counterexample: the older of two compatible injuries. -/
def c4A : HealthEvent :=
  { event_id := "A", type := "injury", severity := "high", title := "Knee Bruise",
    keyword := "bruise", detected_on := "2025-01-01", body_part := some "knee",
    mentions_count := 1 }

/-- C4 counterexample: the strictly more recent compatible injury. -/
def c4B : HealthEvent :=
  { event_id := "B", type := "injury", severity := "high", title := "Hip Bruise",
    keyword := "bruise", detected_on := "2025-01-05", body_part := some "hip",
    mentions_count := 1 }

/-- C4 counterexample: a symptom with no body part (wildcard), dated after
both injuries. -/
def c4S : HealthEvent :=
  { event_id := "S", type := "symptom", severity := "low", title := "General Pain",
    keyword := "pain", detected_on := "2025-01-10", body_part := none,
    mentions_count := 1 }

/-- C4 counterexample event list. -/
def c4Events : List HealthEvent := [c4A, c4B, c4S]

/-- C5 witness conversation: one well-formed, non-meta quote. -/
def c5Conv : Conv :=
  { timestamp := "2025-03-01T10:00:00Z",
    analysis :=
      { conversation :=
          { mood := "positive",
            memorable_quotes := ["My daughter came to visit me today"] } } }

/-- The themes produced for `c5Conv`. -/
def c5Out : InTheirWords := build_in_their_words unitEnv [c5Conv] "They"

/-- The single theme of `c5Out`. -/
def c5Th : Theme :=
  c5Out.themes.headD
    { theme_id := "", theme_name := "", icon := "", priority := 0, context := "",
      quotes := [], total_quotes := 0, first_mentioned := "", last_updated := "" }

/-- The single stored quote of `c5Th`. -/
def c5Q : QuoteRec :=
  c5Th.quotes.headD { quote := "", date := "", timestamp := "", mood := "", mood_emoji := "" }

/-- The C6 witness quote from the spec scenario. -/
def c6Quote : String := "The pain in my shoulder has been tough to deal with"

/-- C7 witness registry with one registered tester. -/
def c7Registry : List (String × Tester) := [("beta_001", {})]

/-- C9 witness conversation: fall keywords in the transcript, empty summary. -/
def c9Conv : Conv := { transcript := "User: I fell down\nAila: oh no" }

/-- C10 witness detection output. -/
def c10Ev : HealthEvent := (detect_health_events unitEnv [convFallW] "").headD {}

/-- C1 witness detection output. -/
def c1Ev : HealthEvent := (detect_health_events unitEnv [convFallW] "").headD {}

/-! ## General lemmas: stable sort, dedup, association updates -/

theorem mem_insSortedBy {le : α → α → Bool} {x y : α} :
    ∀ {l : List α}, y ∈ insSortedBy le x l ↔ (y = x ∨ y ∈ l) := by
  intro l
  induction l with
  | nil => simp [insSortedBy]
  | cons a t ih =>
    simp only [insSortedBy]
    split
    · rw [List.mem_cons, ih, List.mem_cons]
      tauto
    · rw [List.mem_cons, List.mem_cons]

theorem mem_foldl_ins {le : α → α → Bool} (y : α) :
    ∀ (l acc : List α),
      (y ∈ l.foldl (fun acc x => insSortedBy le x acc) acc) ↔ (y ∈ acc ∨ y ∈ l) := by
  intro l
  induction l with
  | nil => simp
  | cons a t ih =>
    intro acc
    rw [List.foldl_cons, ih, mem_insSortedBy, List.mem_cons]
    try tauto


theorem mem_stableSortBy {le : α → α → Bool} {y : α} {l : List α} :
    y ∈ stableSortBy le l ↔ y ∈ l := by
  simp [stableSortBy, mem_foldl_ins]

theorem countP_insSortedBy (p : α → Bool) (le : α → α → Bool) (x : α) :
    ∀ (l : List α),
      (insSortedBy le x l).countP p = l.countP p + (if p x then 1 else 0) := by
  intro l
  induction l with
  | nil => simp [insSortedBy, List.countP_cons]
  | cons a t ih =>
    simp only [insSortedBy]
    split
    · simp only [List.countP_cons, ih]
      try omega
    · simp only [List.countP_cons]
      try omega

theorem countP_foldl_ins (p : α → Bool) (le : α → α → Bool) :
    ∀ (l acc : List α),
      (l.foldl (fun acc x => insSortedBy le x acc) acc).countP p =
        acc.countP p + l.countP p := by
  intro l
  induction l with
  | nil => simp
  | cons a t ih =>
    intro acc
    simp only [List.foldl_cons, ih, countP_insSortedBy, List.countP_cons]
    omega

theorem countP_stableSortBy (p : α → Bool) (le : α → α → Bool) (l : List α) :
    (stableSortBy le l).countP p = l.countP p := by
  simp [stableSortBy, countP_foldl_ins]

theorem mem_dedupByKeyAux {key : α → String} :
    ∀ {seen : List String} {l : List α} {x : α},
      x ∈ dedupByKeyAux key seen l → x ∈ l := by
  intro seen l
  induction l generalizing seen with
  | nil => intro x h; simp [dedupByKeyAux] at h
  | cons a t ih =>
    intro x h
    simp only [dedupByKeyAux] at h
    split at h
    · exact List.mem_cons_of_mem _ (ih h)
    · rcases List.mem_cons.mp h with h1 | h1
      · exact h1 ▸ List.mem_cons_self _ _
      · exact List.mem_cons_of_mem _ (ih h1)

theorem countP_dedupByKeyAux_le_one {key : α → String} (p : α → Bool) (k : String)
    (hp : ∀ a, p a = true → key a = k) :
    ∀ (l : List α) (seen : List String),
      (seen.contains k = true → (dedupByKeyAux key seen l).countP p = 0) ∧
      (dedupByKeyAux key seen l).countP p ≤ 1 := by
  intro l
  induction l with
  | nil => intro seen; simp [dedupByKeyAux]
  | cons a t ih =>
    intro seen
    simp only [dedupByKeyAux]
    split
    · exact ih seen
    · rename_i hns
      constructor
      · intro hk
        by_cases hpa : p a = true
        · have hmem : seen.contains (key a) = true := by rw [hp a hpa]; exact hk
          exact absurd hmem hns
        · have h0 : (dedupByKeyAux key (key a :: seen) t).countP p = 0 :=
            (ih (key a :: seen)).1 (by rw [List.contains_cons, hk]; simp)
          rw [List.countP_cons, if_neg hpa, h0]
      · by_cases hpa : p a = true
        · have h0 : (dedupByKeyAux key (key a :: seen) t).countP p = 0 :=
            (ih (key a :: seen)).1 (by rw [List.contains_cons]; simp [hp a hpa])
          rw [List.countP_cons, if_pos hpa, h0]
        · have h2 := (ih (key a :: seen)).2
          rw [List.countP_cons, if_neg hpa]
          omega

theorem aupdA_forall [BEq κ] (P : α → Prop) {k : κ} {f : α → α} {dflt : α}
    (hf : ∀ d, P d → P (f d)) (hd : P dflt) :
    ∀ {l : List (κ × α)}, (∀ p ∈ l, P p.2) →
      ∀ p ∈ aupdA k f dflt l, P p.2 := by
  intro l
  induction l with
  | nil =>
    intro _ p hp
    simp only [aupdA] at hp
    rcases List.mem_singleton.mp hp with h
    exact h ▸ hf dflt hd
  | cons a t ih =>
    intro hl p hp
    simp only [aupdA] at hp
    split at hp
    · rcases List.mem_cons.mp hp with h | h
      · exact h ▸ hf a.2 (hl a (List.mem_cons_self _ _))
      · exact hl p (List.mem_cons_of_mem _ h)
    · rcases List.mem_cons.mp hp with h | h
      · exact h ▸ hl a (List.mem_cons_self _ _)
      · exact ih (fun q hq => hl q (List.mem_cons_of_mem _ hq)) p h

theorem length_insSortedBy (le : α → α → Bool) (x : α) :
    ∀ (l : List α), (insSortedBy le x l).length = l.length + 1 := by
  intro l
  induction l with
  | nil => simp [insSortedBy]
  | cons a t ih =>
    simp only [insSortedBy]
    split <;> simp [ih]

theorem length_foldl_ins (le : α → α → Bool) :
    ∀ (l acc : List α),
      (l.foldl (fun acc x => insSortedBy le x acc) acc).length =
        acc.length + l.length := by
  intro l
  induction l with
  | nil => simp
  | cons a t ih =>
    intro acc
    rw [List.foldl_cons, ih, length_insSortedBy, List.length_cons]
    omega

theorem length_stableSortBy (le : α → α → Bool) (l : List α) :
    (stableSortBy le l).length = l.length := by
  simp [stableSortBy, length_foldl_ins]

theorem consolidateSorted_length (ms : List Mention) :
    (consolidateSorted ms).length = effectiveMentions ms := by
  unfold consolidateSorted effectiveMentions
  dsimp only
  split
  · rw [length_stableSortBy]
  · rfl

theorem detectMentionCount_eq (convs : List Conv) :
    detectMentionCount convs = fallMentionCount convs := by
  unfold detectMentionCount fallMentionCount
  have aux : ∀ (f g : Conv → Bool) (l : List Conv) (k : Nat),
      l.foldl (fun n c => n + (if f c then 1 else 0) + (if g c then 1 else 0)) k =
        k + l.countP f + l.countP g := by
    intro f g l
    induction l with
    | nil => simp
    | cons c t ih =>
      intro k
      rw [List.foldl_cons, ih, List.countP_cons, List.countP_cons]
      omega
  simpa using aux
    (fun c => c.analysis.health.summary ≠ "" &&
      textHasFall (pyLower c.analysis.health.summary))
    (fun c => c.transcript ≠ "" &&
      textHasFall (pyLower (extract_user_content c.transcript)))
    convs 0

/-! ## Claim C9 -/

/-- C9: for every set of conversations in which no conversation carries a
non-empty `analysis.health.summary` string, `_detect_health_events` returns
an empty event list, even when fall keywords appear in transcripts, red
flags, or the knowledge-base document. -/
theorem C9_no_summary_no_events (env : Env T) (convs : List Conv) (kb : String)
    (h : ∀ c ∈ convs, c.analysis.health.summary = "") :
    detect_health_events env convs kb = [] := by
  have hf : detectSummaries convs = [] := by
    rw [detectSummaries, List.filterMap_eq_nil_iff]
    intro c hc
    simp [h c hc]
  simp [detect_health_events, hf]

/-- C9 witness: fall keywords in the transcript and the knowledge base, but
no health summary; the detector returns nothing. -/
theorem C9_witness : detect_health_events unitEnv [c9Conv] "he fell last week" = [] :=
  C9_no_summary_no_events unitEnv [c9Conv] "he fell last week" (by decide)

/-! ## Claim C10 -/

/-- C10: every `HealthEvent` built by consolidation has
`needs_family_followup` true exactly when its severity is `high`, and every
event built by detection (the single fall event) has severity `high` and
`needs_family_followup` true. -/
theorem C10_followup_iff_high :
    (∀ (env : Env T) (groups : List (String × List Mention)) e,
        e ∈ consolidate_health_events env groups →
        e.needs_family_followup = (e.severity == "high")) ∧
    (∀ (env : Env T) (convs : List Conv) (kb : String) e,
        e ∈ detect_health_events env convs kb →
        e.severity = "high" ∧ e.needs_family_followup = true) := by
  constructor
  · intro env groups e he
    rcases List.mem_filterMap.mp he with ⟨p, _, hp⟩
    rw [consolidateGroup] at hp
    split at hp
    · exact absurd hp (by simp)
    · split at hp
      · exact absurd hp (by simp)
      · have he2 := Option.some.inj hp
        subst he2
        rfl
  · intro env convs kb e he
    rw [detect_health_events] at he
    split at he
    · rcases List.mem_singleton.mp he with h
      subst h
      exact ⟨rfl, rfl⟩
    · exact absurd he (by simp)

/-- C10 witness: the concrete detected fall event of `convFallW` has
severity `high` and `needs_family_followup` set. -/
theorem C10_witness : c10Ev.severity = "high" ∧ c10Ev.needs_family_followup = true :=
  C10_followup_iff_high.2 unitEnv [convFallW] "" c10Ev (by decide)

/-! ## Claim C6 -/

/-- C6: every quote containing a pain-indicator word gets the `Persevering`
override from `_analyze_quote_sentiment`, regardless of the
conversation-level default, and in particular is not labelled `Happy`. -/
theorem C6_pain_override (quote default_emoji default_label : String)
    (h : pain_words.any (fun w => pyIn w (pyLower quote)) = true) :
    analyze_quote_sentiment quote default_emoji default_label = ("💪", "Persevering") ∧
    (analyze_quote_sentiment quote default_emoji default_label).2 ≠ "Happy" := by
  have hq : ¬(quote = "") := by
    intro he
    subst he
    exact absurd h (by decide)
  constructor
  · rw [analyze_quote_sentiment, if_neg hq]
    simp only [h, if_pos]
  · rw [analyze_quote_sentiment, if_neg hq]
    simp only [h, if_pos]
    decide

/-- C6 witness: the spec's shoulder-pain quote in a positive-mood
conversation (default `Happy`) renders as `Persevering`. -/
theorem C6_witness :
    analyze_quote_sentiment c6Quote "😊" "Happy" = ("💪", "Persevering") ∧
    (analyze_quote_sentiment c6Quote "😊" "Happy").2 ≠ "Happy" :=
  C6_pain_override c6Quote "😊" "Happy" (by decide)

/-! ## Claim C2 -/

/-- C2 counterexample: a symptom group of three mentions, only one of which
is dated. The claim as stated requires severity `moderate` (the group has at
least 3 mentions); the code counts only the dated mentions and yields
`low`. -/
theorem C2_counterexample :
    c2Mentions.length = 3 ∧
    c2Mentions.countP (fun m => m.type == "symptom") = 3 ∧
    (consolidate_health_events unitEnv [("symptom_pain_general", c2Mentions)]).map
      (fun e => e.severity) = ["low"] := by
  refine ⟨by decide, by decide, ?_⟩
  decide

/-- C2 amended: for every consolidated group, a fall-keyword or injury-typed
group is `high`; otherwise the group is `moderate` exactly when it has at
least 3 dated mentions (all mentions counting when none is dated) and `low`
otherwise. -/
theorem C2_amended_severity (env : Env T) (key : String) (ms : List Mention)
    (e : HealthEvent) (h : consolidateGroup env key ms = some e) :
    ((fall_words.contains e.keyword || pyIn "fall" key || e.type == "injury") = true →
      e.severity = "high") ∧
    ((fall_words.contains e.keyword || pyIn "fall" key || e.type == "injury") = false →
      e.severity = (if effectiveMentions ms ≥ 3 then "moderate" else "low")) := by
  rw [consolidateGroup] at h
  split at h
  · exact absurd h (by simp)
  · split at h
    · exact absurd h (by simp)
    · rename_i first rest hsorted
      have he := Option.some.inj h
      subst he
      have hkw : (consolidateEvent env key (first :: rest) first).keyword = first.keyword := rfl
      have hty : (consolidateEvent env key (first :: rest) first).type = first.type := rfl
      have hsev : (consolidateEvent env key (first :: rest) first).severity =
          consolidateSeverity key first (first :: rest).length := rfl
      have hlen : (first :: rest).length = effectiveMentions ms := by
        rw [← hsorted, consolidateSorted_length]
      rw [hkw, hty, hsev, hlen, consolidateSeverity]
      constructor
      · intro hc
        rcases Bool.or_eq_true_iff.mp hc with hab | hc2
        · rw [if_pos hab]
        · have h2 : first.type = "injury" := by simpa using hc2
          by_cases hab : (fall_words.contains first.keyword || pyIn "fall" key) = true
          · rw [if_pos hab]
          · rw [if_neg hab, if_pos h2]
      · intro hc
        obtain ⟨hab, hc2⟩ := Bool.or_eq_false_iff.mp hc
        have h2 : ¬ first.type = "injury" := by simpa using hc2
        rw [if_neg (show ¬ (fall_words.contains first.keyword || pyIn "fall" key) = true by
              rw [hab]; simp),
            if_neg h2]

/-! ## Claim C2 witness -/

/-- C2 witness: a single-mention fall-keyword group consolidates with
severity `high`. -/
theorem C2_witness : c2FallEvent.severity = "high" :=
  (C2_amended_severity unitEnv "injury_fall_primary" c2FallMentions c2FallEvent
    (by decide)).1 (by decide)

/-! ## Claim C1 -/

/-- Any string extending `Fall Incident - ` starts with `Fall Incident`. -/
theorem fallPrefix (x y : String) :
    pyStarts ("Fall Incident - " ++ x ++ y) "Fall Incident" = true := by
  rw [pyStarts, List.isPrefixOf_iff_prefix]
  show "Fall Incident".toList <+: ("Fall Incident - ".toList ++ x.toList) ++ y.toList
  exact ((show "Fall Incident".toList <+: "Fall Incident - ".toList by decide).trans
    (List.prefix_append _ _)).trans (List.prefix_append _ _)

/-- The primary event's title, explicitly. -/
theorem detectPrimaryEvent_title (env : Env T) (convs : List Conv) (kb : String) :
    (detectPrimaryEvent env convs kb).title =
      (match detectBodyPart convs kb with
       | some bp =>
         if bp ≠ "" then "Fall Incident - " ++ pyTitle bp ++ " Injury" else "Fall Incident"
       | none => "Fall Incident") := rfl

/-- The primary event's mention count, explicitly. -/
theorem detectPrimaryEvent_mentions (env : Env T) (convs : List Conv) (kb : String) :
    (detectPrimaryEvent env convs kb).mentions_count =
      Nat.max (detectMentionCount convs) (detectSummaries convs).length := rfl

/-- The primary event's title always starts with `Fall Incident`. -/
theorem detectPrimaryEvent_title_starts (env : Env T) (convs : List Conv) (kb : String) :
    pyStarts (detectPrimaryEvent env convs kb).title "Fall Incident" = true := by
  rw [detectPrimaryEvent_title]
  rcases detectBodyPart convs kb with _ | bp
  · decide
  · dsimp only
    by_cases hb : bp ≠ ""
    · rw [if_pos hb]
      exact fallPrefix (pyTitle bp) " Injury"
    · rw [if_neg hb]
      decide

/-- C1 counterexample: a fall is mentioned once, in the transcript source,
yet the detection produces no `HealthEvent` at all (no conversation carries
a non-empty health summary), so no event titled `Fall Incident` exists. -/
theorem C1_counterexample :
    textHasFall (pyLower (extract_user_content cC1.transcript)) = true ∧
    (detect_health_events unitEnv [cC1] "").countP
      (fun e => pyStarts e.title "Fall Incident") = 0 := by
  decide

/-- C1 amended: when additionally at least one conversation carries a
non-empty health summary, and a fall keyword occurs in some conversation's
summary, red flags, or user transcript, exactly one `HealthEvent` whose
title starts with `Fall Incident` is produced, and its `mentions_count` is
at least the number of qualifying fall mentions the detector counts: one per
conversation whose summary mentions a fall plus one per conversation whose
user-transcript content does (red-flag mentions set the flag but are not
counted). -/
theorem C1_amended_fall_uniqueness (env : Env T) (convs : List Conv) (kb : String)
    (hsum : convs.any (fun c => c.analysis.health.summary ≠ "") = true)
    (hfall : convs.any convFallHit = true) :
    (detect_health_events env convs kb).countP
      (fun e => pyStarts e.title "Fall Incident") = 1 ∧
    ∀ e ∈ detect_health_events env convs kb,
      fallMentionCount convs ≤ e.mentions_count := by
  have hmem : ∃ x, x ∈ detectSummaries convs := by
    rcases List.any_eq_true.mp hsum with ⟨c, hc, hcs⟩
    exact ⟨(c.analysis.health.summary, c.timestamp),
      List.mem_filterMap.mpr ⟨c, hc, by rw [if_pos (of_decide_eq_true hcs)]⟩⟩
  have hs : (detectSummaries convs).isEmpty = false := by
    rcases hmem with ⟨x, hx⟩
    cases hds : detectSummaries convs with
    | nil => rw [hds] at hx; exact absurd hx (by simp)
    | cons a t => rfl
  have hguard : (detectHasFall convs kb && !(detectSummaries convs).isEmpty) = true := by
    rw [detectHasFall, hs, hfall]
    rfl
  rw [detect_health_events, if_pos hguard]
  constructor
  · rw [List.countP_cons, List.countP_nil, if_pos (detectPrimaryEvent_title_starts env convs kb)]
  · intro e he
    have he2 := List.mem_singleton.mp he
    subst he2
    rw [detectPrimaryEvent_mentions, ← detectMentionCount_eq]
    exact Nat.le_max_left _ _

/-- C1 witness: one conversation mentioning a fall in both its health
summary and its user transcript yields exactly one `Fall Incident` event
with `mentions_count` at least 2. -/
theorem C1_witness :
    (detect_health_events unitEnv [convFallW] "").countP
      (fun e => pyStarts e.title "Fall Incident") = 1 ∧
    fallMentionCount [convFallW] ≤ c1Ev.mentions_count :=
  ⟨(C1_amended_fall_uniqueness unitEnv [convFallW] "" (by decide) (by decide)).1,
   (C1_amended_fall_uniqueness unitEnv [convFallW] "" (by decide) (by decide)).2
     c1Ev (by decide)⟩

/-! ## Claim C8 -/

theorem eventAlertsAux_high : ∀ (b : Bool) (evs : List HealthEvent) (a : Alert),
    a ∈ eventAlertsAux b evs → a.severity = "high" := by
  intro b evs
  induction evs generalizing b with
  | nil => intro a ha; simp [eventAlertsAux] at ha
  | cons e rest ih =>
    intro a ha
    rw [eventAlertsAux] at ha
    split at ha
    · split at ha
      · split at ha
        · exact ih _ a ha
        · rcases List.mem_cons.mp ha with h | h
          · rw [h]; rfl
          · exact ih _ a h
      · rcases List.mem_cons.mp ha with h | h
        · rw [h]; rfl
        · exact ih _ a h
    · exact ih _ a ha

theorem flagAlerts_high (env : Env T) (convs : List Conv)
    (events : List HealthEvent) :
    ∀ a ∈ flagAlerts env convs events, a.severity = "high" := by
  intro a ha
  rw [flagAlerts] at ha
  rcases List.mem_flatMap.mp ha with ⟨conv, _, hconv⟩
  rcases List.mem_filterMap.mp hconv with ⟨flag, _, hflag⟩
  split at hflag
  · split at hflag
    · exact absurd hflag (by simp)
    · have h2 := Option.some.inj hflag
      rw [← h2]
  · exact absurd hflag (by simp)

theorem alertDedupKey_fall {a : Alert} (h : pyIn "fall" (pyLower a.message) = true) :
    alertDedupKey a = "fall_incident" := by
  simp [alertDedupKey, h]

/-- C8: for every input, `_identify_alerts` returns at most 5 alerts, at
most one of which mentions a fall in its message (deduplication maps every
fall-mentioning message to the key `fall_incident`), and the result is
sorted with high-severity alerts first (every produced alert is
high-severity, so the rank sequence is non-decreasing). -/
theorem C8_alert_shape (env : Env T) (convs : List Conv)
    (events : List HealthEvent) :
    (identify_alerts env convs events).length ≤ 5 ∧
    (identify_alerts env convs events).countP
      (fun a => pyIn "fall" (pyLower a.message)) ≤ 1 ∧
    List.Pairwise (fun a b => alertSevRank a ≤ alertSevRank b)
      (identify_alerts env convs events) := by
  have hhigh : ∀ a ∈ eventAlertsAux false events ++ flagAlerts env convs events,
      a.severity = "high" := by
    intro a ha
    rcases List.mem_append.mp ha with h | h
    · exact eventAlertsAux_high false events a h
    · exact flagAlerts_high env convs events a h
  rw [identify_alerts]
  refine ⟨List.length_take_le _ _, ?_, ?_⟩
  · have h1 := (countP_dedupByKeyAux_le_one
      (fun a => pyIn "fall" (pyLower a.message)) "fall_incident"
      (fun a ha => alertDedupKey_fall ha)
      (eventAlertsAux false events ++ flagAlerts env convs events) []).2
    have h2 : (stableSortBy (fun a b => decide (alertSevRank a ≤ alertSevRank b))
        (dedupByKeyAux alertDedupKey []
          (eventAlertsAux false events ++ flagAlerts env convs events))).countP
        (fun a => pyIn "fall" (pyLower a.message)) ≤ 1 := by
      rw [countP_stableSortBy]
      exact h1
    exact le_trans (List.Sublist.countP_le _ (List.take_sublist _ _)) h2
  · have hz : ∀ a ∈ List.take 5 (stableSortBy
        (fun a b => decide (alertSevRank a ≤ alertSevRank b))
        (dedupByKeyAux alertDedupKey []
          (eventAlertsAux false events ++ flagAlerts env convs events))),
        alertSevRank a = 0 := by
      intro a ha
      have hmem := mem_dedupByKeyAux (mem_stableSortBy.mp (List.mem_of_mem_take ha))
      rw [alertSevRank, if_pos (hhigh a hmem)]
    exact List.pairwise_of_forall_mem_list
      (fun a ha b hb => by rw [hz a ha, hz b hb])

/-! ## Claim C5 -/

theorem processQuote_inv {td : List (String × ThemeData)} {mc : Nat}
    {quote : String} {topics : List String} {ts df : String}
    {cm : String × String}
    (hinv : ∀ p ∈ td, ∀ q ∈ p.2.quotes, storedQuoteOk q) :
    ∀ p ∈ (processQuote td mc quote topics ts df cm).1,
      ∀ q ∈ p.2.quotes, storedQuoteOk q := by
  rw [processQuote]
  by_cases h0 : quote = ""
  · rw [if_pos h0]; exact hinv
  · rw [if_neg h0]
    dsimp only
    by_cases h1 : is_meta_quote (pyStrip quote) = true
    · rw [if_pos h1]; exact hinv
    · rw [if_neg h1]
      by_cases h2 : (pySplit (pyStrip quote)).length < 5
      · rw [if_pos h2]; exact hinv
      · rw [if_neg h2]
        by_cases h3 : resolveThemeId (pyStrip quote) topics = "general"
        · rw [if_pos h3]; exact hinv
        · rw [if_neg h3]
          intro p hp
          refine aupdA_forall (fun d => ∀ q ∈ d.quotes, storedQuoteOk q)
            ?_ ?_ hinv p hp
          · intro d hd q hq
            dsimp only at hq
            rcases List.mem_append.mp hq with h | h
            · exact hd q h
            · rcases List.mem_singleton.mp h with rfl
              exact ⟨Bool.eq_false_iff.mpr h1, Nat.le_of_not_lt h2⟩
          · intro q hq
            simp at hq

theorem processQuote_foldl_inv (qs : List String) :
    ∀ (acc : List (String × ThemeData) × Nat) (topics : List String)
      (ts df : String) (cm : String × String),
      (∀ p ∈ acc.1, ∀ q ∈ p.2.quotes, storedQuoteOk q) →
      ∀ p ∈ (qs.foldl (fun a q => processQuote a.1 a.2 q topics ts df cm) acc).1,
        ∀ q ∈ p.2.quotes, storedQuoteOk q := by
  induction qs with
  | nil => intro acc _ _ _ _ h; exact h
  | cons q0 rest ih =>
    intro acc topics ts df cm h
    rw [List.foldl_cons]
    exact ih _ topics ts df cm (processQuote_inv h)

theorem processConv_fold_inv (env : Env T) (convs : List Conv) :
    ∀ (acc : List (String × ThemeData) × Nat),
      (∀ p ∈ acc.1, ∀ q ∈ p.2.quotes, storedQuoteOk q) →
      ∀ p ∈ (convs.foldl (processConv env) acc).1,
        ∀ q ∈ p.2.quotes, storedQuoteOk q := by
  induction convs with
  | nil => intro acc h; exact h
  | cons c rest ih =>
    intro acc h
    rw [List.foldl_cons]
    exact ih _ (processQuote_foldl_inv _ _ _ _ _ _ h)

theorem buildTheme_quotes_sub {env : Env T} {name : String}
    {p : String × ThemeData} {mc : Nat} {th : Theme}
    (h : (buildTheme env name p mc).1 = some th) :
    ∀ q ∈ th.quotes, q ∈ p.2.quotes := by
  rw [buildTheme] at h
  split at h
  · exact absurd h (by simp)
  · dsimp only at h
    by_cases hm : (is_meta_topic (generate_theme_display_name p.1 p.2.original_topics) ||
        is_meta_topic p.1) = true
    · rw [if_pos hm] at h
      exact absurd h (by simp)
    · rw [if_neg hm] at h
      dsimp only at h
      have h2 := Option.some.inj h
      subst h2
      intro q hq
      exact mem_dedupByKeyAux (mem_stableSortBy.mp (List.mem_of_mem_take hq))

theorem buildThemes_quotes_sub {env : Env T} {name : String} :
    ∀ (td : List (String × ThemeData)) (mc : Nat) (th : Theme),
      th ∈ (buildThemes env name td mc).1 →
      ∃ p ∈ td, ∀ q ∈ th.quotes, q ∈ p.2.quotes := by
  intro td
  induction td with
  | nil => intro mc th h; simp [buildThemes] at h
  | cons p rest ih =>
    intro mc th h
    rw [buildThemes] at h
    split at h
    · rename_i t mc2 heq
      rcases List.mem_cons.mp h with h1 | h1
      · subst h1
        exact ⟨p, List.mem_cons_self _ _,
          buildTheme_quotes_sub (by rw [heq])⟩
      · rcases ih mc2 th h1 with ⟨p2, hp2, hsub⟩
        exact ⟨p2, List.mem_cons_of_mem _ hp2, hsub⟩
    · rename_i mc2 heq
      rcases ih mc2 th h with ⟨p2, hp2, hsub⟩
      exact ⟨p2, List.mem_cons_of_mem _ hp2, hsub⟩

/-- C5: every quote stored under any theme of the `in_their_words` output
passed the meta-quote filter (whose patterns include every
AI-self-reference regex) and has at least 5 words; hence any quote matching
an AI-self-reference pattern or shorter than 5 words appears in no theme's
quote list. -/
theorem C5_meta_and_short_quotes_excluded (env : Env T) (convs : List Conv)
    (elder_name : String) (th : Theme)
    (hth : th ∈ (build_in_their_words env convs elder_name).themes)
    (q : QuoteRec) (hq : q ∈ th.quotes) :
    is_meta_quote q.quote = false ∧ 5 ≤ (pySplit q.quote).length := by
  rw [build_in_their_words] at hth
  dsimp only at hth
  have hth2 := mem_stableSortBy.mp hth
  rcases buildThemes_quotes_sub _ _ _ hth2 with ⟨p, hp, hsub⟩
  exact processConv_fold_inv env convs ([], 0) (by simp) p hp q (hsub q hq)

/-- C5 witness: the family-theme quote of the concrete conversation `c5Conv`
is indeed non-meta and at least five words long. -/
theorem C5_witness : is_meta_quote c5Q.quote = false ∧ 5 ≤ (pySplit c5Q.quote).length :=
  C5_meta_and_short_quotes_excluded unitEnv [c5Conv] "They" c5Th (by decide)
    c5Q (by decide)

/-! ## Linking lemmas for claims C3 and C4 -/

theorem mem_of_map_eq {f : α → β} :
    ∀ {l₁ l₂ : List α}, l₁.map f = l₂.map f → ∀ a ∈ l₁, ∃ b ∈ l₂, f a = f b := by
  intro l₁
  induction l₁ with
  | nil =>
    intro l₂ _ a ha
    exact absurd ha (List.not_mem_nil a)
  | cons x t ih =>
    intro l₂ h a ha
    cases l₂ with
    | nil => simp at h
    | cons y u =>
      rw [List.map_cons, List.map_cons] at h
      injection h with h1 h2
      rcases List.mem_cons.mp ha with rfl | hm
      · exact ⟨y, List.mem_cons_self _ _, h1⟩
      · rcases ih h2 a hm with ⟨b, hb, hfb⟩
        exact ⟨b, List.mem_cons_of_mem _ hb, hfb⟩

theorem linkOne_causes_strip (s : HealthEvent) :
    ∀ causes : List HealthEvent,
      ((linkOne s causes).1).map stripRel = causes.map stripRel := by
  intro causes
  induction causes with
  | nil => rfl
  | cons c cs ih =>
    rw [linkOne]
    by_cases h : linkGuard s c = true
    · rw [if_pos h]
      dsimp only
      rw [List.map_cons, List.map_cons]
      rfl
    · rw [if_neg h]
      dsimp only
      rw [List.map_cons, List.map_cons, ih]

theorem linkOne_symptom_eq (s : HealthEvent) :
    ∀ causes : List HealthEvent,
      (linkOne s causes).2 =
        (match causes.find? (fun c => linkGuard s c) with
         | some c => { s with linked_to := some c.event_id, linked_to_title := some c.title }
         | none => s) := by
  intro causes
  induction causes with
  | nil => rfl
  | cons c cs ih =>
    rw [linkOne]
    by_cases h : linkGuard s c = true
    · rw [if_pos h, List.find?_cons_of_pos _ h]
    · rw [if_neg h, List.find?_cons_of_neg _ h]
      dsimp only
      exact ih

theorem linkAll_causes_strip :
    ∀ (ss causes : List HealthEvent),
      ((linkAll causes ss).1).map stripRel = causes.map stripRel := by
  intro ss
  induction ss with
  | nil => intro causes; rfl
  | cons s rest ih =>
    intro causes
    rw [linkAll]
    dsimp only
    rw [ih, linkOne_causes_strip]

theorem linkGuard_congr_strip (s : HealthEvent) {a b : HealthEvent}
    (h : stripRel a = stripRel b) : linkGuard s a = linkGuard s b := by
  have h1 : a.detected_on = b.detected_on := by
    have hh := congrArg HealthEvent.detected_on h
    exact hh
  have h2 : a.body_part = b.body_part := by
    have hh := congrArg HealthEvent.body_part h
    exact hh
  rw [linkGuard, linkGuard, h1, h2]

theorem find?_congr_strip (s : HealthEvent) :
    ∀ {l₁ l₂ : List HealthEvent}, l₁.map stripRel = l₂.map stripRel →
      (l₁.find? (fun c => linkGuard s c)).map stripRel =
        (l₂.find? (fun c => linkGuard s c)).map stripRel := by
  intro l₁
  induction l₁ with
  | nil =>
    intro l₂ h
    cases l₂ with
    | nil => rfl
    | cons b u => simp at h
  | cons a t ih =>
    intro l₂ h
    cases l₂ with
    | nil => simp at h
    | cons b u =>
      rw [List.map_cons, List.map_cons] at h
      injection h with h1 h2
      have hg : linkGuard s a = linkGuard s b := linkGuard_congr_strip s h1
      by_cases hga : linkGuard s a = true
      · rw [List.find?_cons_of_pos _ hga, List.find?_cons_of_pos _ (hg ▸ hga)]
        exact congrArg some h1
      · rw [List.find?_cons_of_neg _ hga, List.find?_cons_of_neg _ (fun hc => hga (hg ▸ hc))]
        exact ih h2

theorem linkAll_snd :
    ∀ (ss causes : List HealthEvent),
      (linkAll causes ss).2 = ss.map (fun s =>
        match causes.find? (fun c => linkGuard s c) with
        | some c => { s with linked_to := some c.event_id, linked_to_title := some c.title }
        | none => s) := by
  intro ss
  induction ss with
  | nil => intro causes; rfl
  | cons s rest ih =>
    intro causes
    rw [linkAll]
    dsimp only
    rw [List.map_cons]
    refine congrArg₂ _ (linkOne_symptom_eq s causes) ?_
    rw [ih ((linkOne s causes).1)]
    refine List.map_congr_left ?_
    intro x _
    have hf := find?_congr_strip x (linkOne_causes_strip s causes)
    cases h1 : ((linkOne s causes).1).find? (fun c => linkGuard x c) with
    | none =>
      cases h2 : causes.find? (fun c => linkGuard x c) with
      | none => rfl
      | some c2 => rw [h1, h2] at hf; simp at hf
    | some c1 =>
      cases h2 : causes.find? (fun c => linkGuard x c) with
      | none => rw [h1, h2] at hf; simp at hf
      | some c2 =>
        rw [h1, h2] at hf
        have hf2 : some (stripRel c1) = some (stripRel c2) := hf
        have hs := Option.some.inj hf2
        have he : c1.event_id = c2.event_id := by
          have hh := congrArg HealthEvent.event_id hs
          exact hh
        have ht : c1.title = c2.title := by
          have hh := congrArg HealthEvent.title hs
          exact hh
        dsimp only
        rw [he, ht]

theorem groupByBody_forall (P : HealthEvent → Prop) :
    ∀ (t : List HealthEvent) (acc : List (String × List HealthEvent)),
      (∀ p ∈ acc, ∀ x ∈ p.2, P x) → (∀ e ∈ t, P e) →
      ∀ p ∈ t.foldl
        (fun acc i =>
          let body := match i.body_part with
            | some b => if b = "" then "general" else b
            | none => "general"
          aupdA body (fun l => l ++ [i]) [] acc)
        acc,
      ∀ x ∈ p.2, P x := by
  intro t
  induction t with
  | nil =>
    intro acc hacc _ p hp
    exact hacc p hp
  | cons i rest ih =>
    intro acc hacc ht p hp
    rw [List.foldl_cons] at hp
    refine ih _ ?_ (fun e he => ht e (List.mem_cons_of_mem _ he)) p hp
    intro q hq
    dsimp only at hq
    refine aupdA_forall (fun g => ∀ x ∈ g, P x) ?_ ?_ hacc q hq
    · intro d hd x hx
      rcases List.mem_append.mp hx with hx | hx
      · exact hd x hx
      · rcases List.mem_singleton.mp hx with rfl
        exact ht x (List.mem_cons_self _ _)
    · intro x hx
      exact absurd hx (List.not_mem_nil x)

theorem mergeFalls_linked_none (env : Env T) (fl : List HealthEvent)
    (h : ∀ e ∈ fl, e.linked_to = none) :
    ∀ m ∈ mergeFalls env fl, m.linked_to = none := by
  intro m hm
  cases fl with
  | nil => exact absurd hm (List.not_mem_nil m)
  | cons f0 t =>
    rw [mergeFalls] at hm
    rcases List.mem_singleton.mp hm with rfl
    show (match (f0 :: t).find? (fun (i : HealthEvent) => !(optFalsy i.body_part)) with
          | some p => p
          | none => f0).linked_to = none
    cases hf : (f0 :: t).find? (fun (i : HealthEvent) => !(optFalsy i.body_part)) with
    | some p =>
      exact h p (List.mem_of_find?_eq_some hf)
    | none =>
      exact h f0 (List.mem_cons_self _ _)

theorem mergeBodyGroup_linked_none (env : Env T) (g : List HealthEvent)
    (h : ∀ e ∈ g, e.linked_to = none) :
    ∀ m, mergeBodyGroup env g = some m → m.linked_to = none := by
  intro m hm
  cases g with
  | nil => exact absurd hm (by simp [mergeBodyGroup])
  | cons p rest =>
    cases rest with
    | nil =>
      have : p = m := Option.some.inj hm
      exact this ▸ h p (List.mem_cons_self _ _)
    | cons q rest2 =>
      have := Option.some.inj hm
      rw [← this]
      exact h p (List.mem_cons_self _ _)

theorem mergedInjuries_linked_none (env : Env T) (events : List HealthEvent)
    (hnl : ∀ e ∈ events, e.linked_to = none) :
    ∀ m ∈ mergedInjuries env events, m.linked_to = none := by
  intro m hm
  rw [mergedInjuries] at hm
  rcases List.mem_append.mp hm with h1 | h2
  · refine mergeFalls_linked_none env _ ?_ m h1
    intro e he
    exact hnl e (List.mem_filter.mp (List.mem_filter.mp he).1).1
  · rcases List.mem_filterMap.mp h2 with ⟨g, hg, hsome⟩
    refine mergeBodyGroup_linked_none env g.2 ?_ m hsome
    intro x hx
    refine groupByBody_forall (fun x => x.linked_to = none) _ []
      (fun p hp => absurd hp (List.not_mem_nil p)) ?_ g hg x hx
    intro e he
    exact hnl e (List.mem_filter.mp (List.mem_filter.mp he).1).1

/-! ## Claim C4 -/

/-- C4 counterexample: symptom `S` has no body part (wildcard) and two
compatible injuries, `A` dated 2025-01-01 and `B` dated 2025-01-05, both
before the symptom. The claim requires the most recently-dated compatible
injury (`B`); the code links the first compatible injury in merged order
(`A`). -/
theorem C4_counterexample :
    ((link_symptoms_to_causes unitEnv c4Events).find? (fun e => e.event_id == "S")).map
        (fun e => e.linked_to) = some (some "A") ∧
    linkGuard c4S c4B = true ∧
    pyLe c4B.detected_on c4S.detected_on = true ∧
    pyLt c4A.detected_on c4B.detected_on = true := by
  refine ⟨?_, by decide, by decide, by decide⟩
  decide

/-- C4 amended: every symptom is linked to the FIRST injury in the merged
injury list that passes the compatibility guard (timeline and body-part
wildcard), not to the most recently-dated compatible one; if no injury is
compatible the symptom passes through unlinked. -/
theorem C4_amended_first_compatible (env : Env T) (events : List HealthEvent)
    (s : HealthEvent) (hs : s ∈ events.filter (fun e => e.type == "symptom")) :
    ∃ s2 ∈ link_symptoms_to_causes env events,
      s2 = (match (mergedInjuries env events).find? (fun c => linkGuard s c) with
            | some c => { s with linked_to := some c.event_id,
                                 linked_to_title := some c.title }
            | none => s) := by
  refine ⟨_, ?_, rfl⟩
  rw [link_symptoms_to_causes]
  refine mem_stableSortBy.mpr ?_
  refine List.mem_append.mpr (Or.inl ?_)
  refine List.mem_append.mpr (Or.inr ?_)
  rw [linkAll_snd]
  exact List.mem_map_of_mem _ hs

/-- C4 witness: the amended theorem applied to the counterexample scenario;
the symptom comes out linked to the first compatible injury. -/
theorem C4_witness :
    c4S ∈ c4Events.filter (fun e => e.type == "symptom") ∧
    ∃ s2 ∈ link_symptoms_to_causes unitEnv c4Events,
      s2 = (match (mergedInjuries unitEnv c4Events).find? (fun c => linkGuard c4S c) with
            | some c => { c4S with linked_to := some c.event_id,
                                   linked_to_title := some c.title }
            | none => c4S) :=
  ⟨by decide, C4_amended_first_compatible unitEnv c4Events c4S (by decide)⟩

/-! ## Claim C3 -/

/-- C3: for input events that are not yet linked, every event of the linker
output that carries a `linked_to` reference points at an output cause whose
`detected_on` is at most the output event's own `detected_on`, or is empty:
a symptom dated strictly before an injury is never linked to it. -/
theorem C3_linked_cause_not_later (env : Env T) (events : List HealthEvent)
    (hnl : ∀ e ∈ events, e.linked_to = none)
    (s2 : HealthEvent) (hs2 : s2 ∈ link_symptoms_to_causes env events)
    (cid : String) (hlink : s2.linked_to = some cid) :
    ∃ c ∈ link_symptoms_to_causes env events,
      c.event_id = cid ∧ s2.linked_to_title = some c.title ∧
      (pyLe c.detected_on s2.detected_on = true ∨ c.detected_on = "") := by
  rw [link_symptoms_to_causes] at hs2
  have hs2m := mem_stableSortBy.mp hs2
  rcases List.mem_append.mp hs2m with h12 | hother
  · rcases List.mem_append.mp h12 with h1 | h2
    · exfalso
      rcases mem_of_map_eq (linkAll_causes_strip _ _) s2 h1 with ⟨b, hb, hsb⟩
      have h0 : s2.linked_to = b.linked_to := by
        have hh := congrArg HealthEvent.linked_to hsb
        exact hh
      rw [mergedInjuries_linked_none env events hnl b hb] at h0
      rw [hlink] at h0
      exact Option.noConfusion h0
    · rw [linkAll_snd] at h2
      rcases List.mem_map.mp h2 with ⟨s, hsmem, hfs⟩
      have hsev : s ∈ events := (List.mem_filter.mp hsmem).1
      cases hf : (mergedInjuries env events).find? (fun c => linkGuard s c) with
      | none =>
        exfalso
        rw [hf] at hfs
        dsimp only at hfs
        rw [← hfs] at hlink
        rw [hnl s hsev] at hlink
        exact Option.noConfusion hlink
      | some c =>
        rw [hf] at hfs
        dsimp only at hfs
        have hguard := List.find?_some hf
        simp only [linkGuard, Bool.and_eq_true, Bool.or_eq_true, decide_eq_true_eq]
          at hguard
        have hcmem := List.mem_of_find?_eq_some hf
        rcases mem_of_map_eq (linkAll_causes_strip
          (events.filter (fun e => e.type == "symptom")) _).symm c hcmem with ⟨b, hb, hcb⟩
        have he : c.event_id = b.event_id := by
          have hh := congrArg HealthEvent.event_id hcb
          exact hh
        have ht2 : c.title = b.title := by
          have hh := congrArg HealthEvent.title hcb
          exact hh
        have hdo : c.detected_on = b.detected_on := by
          have hh := congrArg HealthEvent.detected_on hcb
          exact hh
        have hs2do : s2.detected_on = s.detected_on := by rw [← hfs]
        refine ⟨b, ?_, ?_, ?_, ?_⟩
        · rw [link_symptoms_to_causes]
          exact mem_stableSortBy.mpr
            (List.mem_append.mpr (Or.inl (List.mem_append.mpr (Or.inl hb))))
        · have hlink2 : some c.event_id = some cid := by
            rw [← hfs] at hlink
            exact hlink
          rw [← he]
          exact Option.some.inj hlink2
        · rw [← hfs, ← ht2]
        · rcases hguard.1 with hle | heq
          · left
            rw [← hdo, hs2do]
            exact hle
          · right
            rw [← hdo]
            exact heq
  · exfalso
    have hmem : s2 ∈ events := (List.mem_filter.mp hother).1
    rw [hnl s2 hmem] at hlink
    exact Option.noConfusion hlink

/-- C3 witness: the knee-injury/knee-pain scenario; the linked symptom in
the output points at the injury, whose date precedes the symptom date. -/
theorem C3_witness :
    (∀ e ∈ c3Events, e.linked_to = none) ∧
    c3OutS ∈ link_symptoms_to_causes unitEnv c3Events ∧
    c3OutS.linked_to = some "A" ∧
    ∃ c ∈ link_symptoms_to_causes unitEnv c3Events,
      c.event_id = "A" ∧ c3OutS.linked_to_title = some c.title ∧
      (pyLe c.detected_on c3OutS.detected_on = true ∨ c.detected_on = "") :=
  ⟨by decide, by decide, by decide,
   C3_linked_cause_not_later unitEnv c3Events (by decide) c3OutS (by decide) "A" (by decide)⟩

/-! ## Claim C7 -/

theorem detect_health_events_nil (env : Env T) (kb : String) :
    detect_health_events env [] kb = [] := by
  simp [detect_health_events, detectSummaries]

/-- C7: for every registered tester with zero conversation records the
dashboard generator returns a full (non-error) report whose summary counts
zero conversations; every section is the corresponding empty shape: no
health events, no alerts, no quote themes, the placeholder weekly block,
zero life-story stories and zero biography stories. -/
theorem C7_zero_conversations [LinearOrder T] (env : Env T)
    (registry : List (String × Tester)) (beta_id : String) (kb : String)
    (tester : Tester) (hreg : agetA beta_id registry = some tester) :
    ∃ d, generate_dashboard env registry beta_id [] kb = some d ∧
      d.summary.total_conversations = 0 ∧
      d.summary.status = "no_conversations" ∧
      d.health_events = [] ∧
      d.alerts = [] ∧
      d.in_their_words.themes = [] ∧
      d.weekly_updates = empty_weekly_updates (tester.signup_data.theirName.getD "They") ∧
      d.life_story.progress.total_stories = 0 ∧
      d.biography_progress.total_stories_captured = 0 := by
  unfold generate_dashboard
  rw [hreg]
  dsimp only
  rw [detect_health_events_nil]
  exact ⟨_, rfl, rfl, rfl, rfl, rfl, rfl, rfl, rfl, rfl⟩

/-- C7 witness: the registered tester `beta_001` with no conversation files
and no knowledge base gets the complete empty report. -/
theorem C7_witness :
    agetA "beta_001" c7Registry = some ({} : Tester) ∧
    ∃ d, generate_dashboard unitEnv c7Registry "beta_001" [] "" = some d ∧
      d.summary.total_conversations = 0 ∧
      d.summary.status = "no_conversations" ∧
      d.health_events = [] ∧
      d.alerts = [] ∧
      d.in_their_words.themes = [] ∧
      d.weekly_updates =
        empty_weekly_updates (({} : Tester).signup_data.theirName.getD "They") ∧
      d.life_story.progress.total_stories = 0 ∧
      d.biography_progress.total_stories_captured = 0 :=
  ⟨by decide, C7_zero_conversations unitEnv c7Registry "beta_001" "" {} (by decide)⟩

end Telaila
